import Mathlib

/-!
# SPI NAND flash driver (`nand_spi_flash.c`): shallow embedding

The driver keeps two statics, the transfer buffer `m_nsf_buffer` and the
cache tracker `read_row_addr_in_cache`, and talks to the chip only through
`nand_spi_transfer`.  Here the statics become fields of `State`, the chip
behind the SPI bus becomes a `Device` parameter, and every exchange is
appended to a trace.

* Bytes are `Nat`; every store into the `uint8_t` buffer is taken `% 256`.
* `uint16_t + uint16_t` is evaluated in `int` (32 bit on the nRF targets of
  this repository), so the sum in the bounds check cannot wrap; it is a
  plain `Nat` sum here.
* `m_nsf_buffer` is `static uint8_t m_nsf_buffer[255]`: an array with the
  indices `0 .. NSF_BUFFER_SIZE - 1` and no others, so the field is a
  function on `Fin NSF_BUFFER_SIZE`.  An access past the last index is
  undefined behaviour in C.  In the model `nand_spi_transfer` and the two
  `memcpy` calls check the range they touch against the size of the array;
  when it does not fit, the call they belong to ends there without a
  return value.  `extent` records how far from the base of the array the
  code has asked to reach (largest index + 1).
* The status poll of `nand_spi_flash_read_status` has no bound in the
  source.  The model runs it for at most `fuel` iterations; the poll gives
  `none` when the chip was still busy at the end of the fuel.
* So a driver call has the result `none` in two cases: its status poll was
  still running when the fuel ran out, or it reached past the end of
  `m_nsf_buffer`.
-/

namespace NandSpiFlash

/-! ## Constants of `nand_spi_flash.c` and `nand_spi_flash.h` -/

@[reducible] def NSF_CMD_READ_ID : Nat := 0x9F
@[reducible] def NSF_CMD_READ_CELL_TO_CACHE : Nat := 0x13
@[reducible] def NSF_CMD_GET_FEATURE : Nat := 0x0F
@[reducible] def NSF_CMD_SET_FEATURE : Nat := 0x1F
@[reducible] def NSF_CMD_FEATURE_STATUS : Nat := 0xC0
@[reducible] def NSF_CMD_FEATURE_LOCK : Nat := 0xA0
@[reducible] def NSF_CMD_RESET : Nat := 0xFF
@[reducible] def NSF_CMD_WRITE_ENABLE : Nat := 0x06
@[reducible] def NSF_CMD_BLOCK_ERASE : Nat := 0xD8
@[reducible] def NSF_CMD_PROGRAM_LOAD : Nat := 0x02
@[reducible] def NSF_CMD_PROGRAM_EXECUTE : Nat := 0x10
/-- Opcode written as the literal `0x03` in `nand_spi_flash_page_read`. -/
@[reducible] def NSF_CMD_READ_FROM_CACHE : Nat := 0x03

@[reducible] def NSF_OIP_MASK : Nat := 0x01
@[reducible] def NSF_PRG_F_MASK : Nat := 0x08
@[reducible] def NSF_ERS_F_MASK : Nat := 0x04
@[reducible] def NSF_ECC_MASK : Nat := 0x30

/-- Number of bytes of `static uint8_t m_nsf_buffer[255]`. -/
@[reducible] def NSF_BUFFER_SIZE : Nat := 255

@[reducible] def NAND_FLASH_PER_PAGE_SIZE : Nat := 2112
@[reducible] def NAND_FLASH_PAGE_COUNT_PER_BLOCK : Nat := 128
@[reducible] def NAND_FLASH_BLOCK_COUNT : Nat := 2048
@[reducible] def NAND_FLASH_ROW_COUNT : Nat :=
  NAND_FLASH_PAGE_COUNT_PER_BLOCK * NAND_FLASH_BLOCK_COUNT

@[reducible] def NSF_ERR_OK : Int := 0
@[reducible] def NSF_ERR_NOT_INITED : Int := -1
@[reducible] def NSF_ERR_ALREADY_INITED : Int := -2
@[reducible] def NSF_ERR_UNKNOWN_DEVICE : Int := -3
@[reducible] def NSF_ERR_READ_ONLY : Int := -4
@[reducible] def NSF_ERR_BAD_BLOCK : Int := -5
@[reducible] def NSF_ERR_DATA_TOO_BIG : Int := -6
@[reducible] def NSF_ERR_ERASE : Int := -7
@[reducible] def NSF_ERR_PROGRAM : Int := -8
@[reducible] def NSF_ERROR_SPI : Int := -100

/-! ## State -/

/-- One call of `nand_spi_transfer`: the `tx_len` bytes written, and `rx_len`. -/
structure Xfer where
  tx : List Nat
  rx_len : Nat
deriving DecidableEq, Repr

/-- The chip behind `spi_transfer` (declared in `transfer_handler.h`, which is
not part of the sources).  `spi_transfer dev tx n` is one chip-select
bracketed exchange that shifts out the bytes `tx` and clocks `n` bytes in
all; it gives the next chip state and the byte received at each clock
position. -/
structure Device (δ : Type) where
  spi_transfer : δ → List Nat → Nat → δ × (Nat → Nat)

/-- Driver statics, the chip, and the exchanges issued so far.
`m_nsf_buffer` is the array `static uint8_t m_nsf_buffer[255]` (line 32): it
has the indices below `NSF_BUFFER_SIZE` and no others.  `extent` is the
largest index + 1 that the code has asked to touch, counted from the base of
the array. -/
structure State (δ : Type) where
  m_nsf_buffer : Fin NSF_BUFFER_SIZE → Nat
  read_row_addr_in_cache : Nat
  dev : δ
  trace : List Xfer
  extent : Nat

/-- Result of a driver call that returns `int`.  `ret = none` when the call
has no return value: its status poll was still running at the end of the
fuel, or it reached past the end of `m_nsf_buffer`; `st` is then the state
at that point. -/
structure Reply (δ : Type) where
  ret : Option Int
  st : State δ

/-- Result of `nand_spi_flash_page_read`: `out` holds the bytes copied into
the caller's buffer by the final `memcpy` (empty when it is not reached). -/
structure ReadReply (δ : Type) where
  ret : Option Int
  out : List Nat
  st : State δ

/-- The statement `m_nsf_buffer[i] = v;` for a constant index `i`. -/
def poke {δ : Type} (i : Fin NSF_BUFFER_SIZE) (v : Nat) (st : State δ) : State δ :=
  { st with
    m_nsf_buffer := fun j => if j = i then v % 256 else st.m_nsf_buffer j
    extent := max st.extent (i.val + 1) }

/-- The bytes `m_nsf_buffer[off .. off+n-1]` of a range that lies inside the
array. -/
def buffer_bytes {δ : Type} (st : State δ) (off n : Nat) (h : off + n ≤ NSF_BUFFER_SIZE) :
    List Nat :=
  (List.range n).pmap (fun i (hi : off + i < NSF_BUFFER_SIZE) => st.m_nsf_buffer ⟨off + i, hi⟩)
    (fun _ hi => Nat.lt_of_lt_of_le (Nat.add_lt_add_left (List.mem_range.mp hi) off) h)

/-- The byte `m_nsf_buffer[i]`, with 0 standing in for an index outside the
array.  The driver does not use it; it serves to state which bytes a range
inside the array holds. -/
def peek {δ : Type} (st : State δ) (i : Nat) : Nat :=
  if h : i < NSF_BUFFER_SIZE then st.m_nsf_buffer ⟨i, h⟩ else 0

/-- The statement `memcpy(&m_nsf_buffer[off], data, len);`.  The caller's
array `data` has to hold at least `len` bytes.  The flag is `true` when the
bytes `off .. off+len-1` lie inside the array and have been written; when
they do not, the copy runs past the array and nothing is written here. -/
def memcpy_in {δ : Type} (off : Nat) (data : List Nat) (len : Nat) (st : State δ) :
    Bool × State δ :=
  if off + len ≤ NSF_BUFFER_SIZE then
    (true,
     { st with
       m_nsf_buffer := fun j =>
         if off ≤ j.val ∧ j.val < off + len then data.getD (j.val - off) 0 % 256
         else st.m_nsf_buffer j
       extent := max st.extent (off + len) })
  else (false, { st with extent := max st.extent (off + len) })

/-- The bytes read by `memcpy(buffer, &m_nsf_buffer[off], len);`: the bytes
`m_nsf_buffer[off .. off+len-1]` when they lie inside the array, `none` when
the copy would read past it. -/
def memcpy_out {δ : Type} (off len : Nat) (st : State δ) : Option (List Nat) :=
  if h : off + len ≤ NSF_BUFFER_SIZE then some (buffer_bytes st off len h) else none

/-! ## The driver -/

/-- Lines 37-45.  `spi_transfer(buffer, tx_len, buffer, tx_len + rx_len)`:
the first `tx_len` bytes of the array go out, `tx_len + rx_len` bytes come
back into the array from its base.  When that fits the array the return
value is `NSF_ERR_OK`, always.  When it does not, the exchange runs past the
array and there is no return value: if the frame itself lies inside the
array it has gone out by then (it is recorded in the trace and the chip has
taken it), but nothing is said about the bytes received. -/
def nand_spi_transfer {δ : Type} (D : Device δ) (st : State δ) (tx_len rx_len : Nat) :
    Option Int × State δ :=
  if htx : tx_len ≤ NSF_BUFFER_SIZE then
    let frame := buffer_bytes st 0 tx_len (by rw [Nat.zero_add]; exact htx)
    let r := D.spi_transfer st.dev frame (tx_len + rx_len)
    if tx_len + rx_len ≤ NSF_BUFFER_SIZE then
      (some NSF_ERR_OK,
       { st with
         m_nsf_buffer := fun j =>
           if j.val < tx_len + rx_len then r.2 j.val % 256 else st.m_nsf_buffer j
         dev := r.1
         trace := st.trace ++ [⟨frame, rx_len⟩]
         extent := max st.extent (tx_len + rx_len) })
    else
      (none,
       { st with
         dev := r.1
         trace := st.trace ++ [⟨frame, rx_len⟩]
         extent := max st.extent (tx_len + rx_len) })
  else (none, { st with extent := max st.extent (tx_len + rx_len) })

/-- Lines 115-121: the loop `while (m_nsf_buffer[2] & NSF_OIP_MASK) { ... }`,
run for at most `fuel` iterations.  The flag is `true` when the loop has
ended.  The return value of `nand_spi_transfer` is dropped, as in the
source; the three bytes of the exchange lie inside the array. -/
def poll_loop {δ : Type} (D : Device δ) : Nat → State δ → Bool × State δ
  | 0, st => (decide (st.m_nsf_buffer 2 &&& NSF_OIP_MASK = 0), st)
  | fuel + 1, st =>
    if st.m_nsf_buffer 2 &&& NSF_OIP_MASK ≠ 0 then
      let st1 := poke 0 NSF_CMD_GET_FEATURE st
      let st2 := poke 1 NSF_CMD_FEATURE_STATUS st1
      poll_loop D fuel (nand_spi_transfer D st2 2 1).2
    else (true, st)

/-- Lines 112-123. -/
def nand_spi_flash_read_status {δ : Type} (D : Device δ) (fuel : Nat) (st : State δ) :
    Option Nat × State δ :=
  let r := poll_loop D fuel (poke 2 NSF_OIP_MASK st)
  if r.1 then (some (r.2.m_nsf_buffer 2), r.2) else (none, r.2)

/-- Lines 48-68.  The value of `nand_spi_flash_read_status()` is dropped. -/
def nand_spi_flash_reset_unlock {δ : Type} (D : Device δ) (fuel : Nat) (st : State δ) :
    Reply δ :=
  let st1 := poke 0 NSF_CMD_RESET st
  let t1 := nand_spi_transfer D st1 1 0
  match t1.1 with
  | none => ⟨none, t1.2⟩
  | some rc1 =>
    if rc1 ≠ 0 then ⟨some NSF_ERROR_SPI, t1.2⟩
    else
      let p := nand_spi_flash_read_status D fuel t1.2
      match p.1 with
      | none => ⟨none, p.2⟩
      | some _ =>
        let st3 := poke 2 0x00 (poke 1 NSF_CMD_FEATURE_LOCK (poke 0 NSF_CMD_SET_FEATURE p.2))
        let t2 := nand_spi_transfer D st3 3 0
        match t2.1 with
        | none => ⟨none, t2.2⟩
        | some rc2 =>
          if rc2 ≠ 0 then ⟨some NSF_ERROR_SPI, t2.2⟩
          else ⟨some NSF_ERR_OK, t2.2⟩

/-- Lines 71-82. -/
def nand_spi_flash_write_enable {δ : Type} (D : Device δ) (st : State δ) : Reply δ :=
  let st1 := poke 0 NSF_CMD_WRITE_ENABLE st
  let t1 := nand_spi_transfer D st1 1 0
  match t1.1 with
  | none => ⟨none, t1.2⟩
  | some rc1 =>
    if rc1 ≠ 0 then ⟨some NSF_ERROR_SPI, t1.2⟩
    else ⟨some NSF_ERR_OK, t1.2⟩

/-- Lines 85-109.  Pin set-up, `spi_init` and the debug print do not touch
the driver statics.  The result of `nand_spi_flash_reset_unlock` is
dropped. -/
def nand_spi_flash_init {δ : Type} (D : Device δ) (fuel : Nat) (st : State δ) : Reply δ :=
  let st1 := poke 1 0x00 (poke 0 NSF_CMD_READ_ID st)
  let t1 := nand_spi_transfer D st1 2 2
  match t1.1 with
  | none => ⟨none, t1.2⟩
  | some rc1 =>
    if rc1 ≠ 0 then ⟨some NSF_ERROR_SPI, t1.2⟩
    else
      let r := nand_spi_flash_reset_unlock D fuel t1.2
      match r.ret with
      | none => ⟨none, r.st⟩
      | some _ => nand_spi_flash_write_enable D r.st

/-- The three address bytes written at `m_nsf_buffer[1..3]` by every
row-addressed command (lines 137-139, 198-200, 230-232). -/
def poke_row {δ : Type} (row_address : Nat) (st : State δ) : State δ :=
  poke 3 row_address
    (poke 2 ((row_address &&& 0xff00) >>> 8)
      (poke 1 ((row_address &&& 0xff0000) >>> 16) st))

/-- Lines 136-147 of `nand_spi_flash_page_read`: the read-cell-to-cache
command followed by the status poll.  The first component is the value of
`nand_spi_transfer` turned into the early exit of line 143
(`NSF_ERROR_SPI`) or `NSF_ERR_OK`; with `NSF_ERR_OK` the second is the
outcome of the poll. -/
def page_read_load {δ : Type} (D : Device δ) (fuel : Nat) (st : State δ) (row_address : Nat) :
    Option Int × Option Nat × State δ :=
  let st1 := poke_row row_address (poke 0 NSF_CMD_READ_CELL_TO_CACHE st)
  let t1 := nand_spi_transfer D st1 4 0
  match t1.1 with
  | none => (none, none, t1.2)
  | some rc1 =>
    if rc1 ≠ 0 then (some NSF_ERROR_SPI, none, t1.2)
    else (some NSF_ERR_OK, nand_spi_flash_read_status D fuel t1.2)

/-- Lines 156-170 of `nand_spi_flash_page_read`: the cache-read transfer and
the copy to the caller.  The exchange takes `4 + read_len` bytes of the
array and the copy reads the last `read_len` of them. -/
def page_read_transfer {δ : Type} (D : Device δ) (st : State δ) (col_address read_len : Nat) :
    ReadReply δ :=
  let st1 := poke 3 0x00
    (poke 2 col_address
      (poke 1 ((col_address &&& 0xff00) >>> 8)
        (poke 0 NSF_CMD_READ_FROM_CACHE st)))
  let t1 := nand_spi_transfer D st1 4 read_len
  match t1.1 with
  | none => ⟨none, [], t1.2⟩
  | some rc1 =>
    if rc1 ≠ 0 then ⟨some NSF_ERROR_SPI, [], t1.2⟩
    else
      match memcpy_out 4 read_len t1.2 with
      | none => ⟨none, [], t1.2⟩
      | some bytes => ⟨some (read_len : Int), bytes, t1.2⟩

/-- Lines 126-172. -/
def nand_spi_flash_page_read {δ : Type} (D : Device δ) (fuel : Nat) (st : State δ)
    (row_address col_address read_len : Nat) : ReadReply δ :=
  if read_len + col_address ≥ NAND_FLASH_PER_PAGE_SIZE then ⟨some NSF_ERR_DATA_TOO_BIG, [], st⟩
  else if row_address ≥ NAND_FLASH_ROW_COUNT then ⟨some NSF_ERR_DATA_TOO_BIG, [], st⟩
  else if st.read_row_addr_in_cache ≠ row_address then
    let l := page_read_load D fuel st row_address
    match l.1 with
    | none => ⟨none, [], l.2.2⟩
    | some rc1 =>
      if rc1 ≠ 0 then ⟨some NSF_ERROR_SPI, [], l.2.2⟩
      else
        match l.2.1 with
        | none => ⟨none, [], l.2.2⟩
        | some s =>
          if s &&& NSF_ECC_MASK = NSF_ECC_MASK then ⟨some NSF_ERR_BAD_BLOCK, [], l.2.2⟩
          else
            page_read_transfer D { l.2.2 with read_row_addr_in_cache := row_address }
              col_address read_len
  else page_read_transfer D st col_address read_len

/-- Lines 183-204 of `nand_spi_flash_page_write`: program-load with the
payload, the tracker reset, and program-execute.  The first component is
`NSF_ERROR_SPI` for the early exits of lines 191 and 203, `NSF_ERR_OK` when
both exchanges are done, and `none` when the copy of line 188 or an exchange
runs past the array. -/
def page_write_issue {δ : Type} (D : Device δ) (st : State δ)
    (row_address col_address : Nat) (data : List Nat) (data_len : Nat) :
    Option Int × State δ :=
  let st1 := poke 2 col_address
    (poke 1 ((col_address &&& 0xff00) >>> 8)
      (poke 0 NSF_CMD_PROGRAM_LOAD st))
  let m := memcpy_in 3 data data_len st1
  if m.1 = false then (none, m.2)
  else
    let t1 := nand_spi_transfer D m.2 (data_len + 3) 0
    match t1.1 with
    | none => (none, t1.2)
    | some rc1 =>
      if rc1 ≠ 0 then (some NSF_ERROR_SPI, t1.2)
      else
        let st3 : State δ := { t1.2 with read_row_addr_in_cache := NAND_FLASH_ROW_COUNT }
        let st4 := poke_row row_address (poke 0 NSF_CMD_PROGRAM_EXECUTE st3)
        let t2 := nand_spi_transfer D st4 4 0
        match t2.1 with
        | none => (none, t2.2)
        | some rc2 =>
          if rc2 ≠ 0 then (some NSF_ERROR_SPI, t2.2)
          else (some NSF_ERR_OK, t2.2)

/-- Lines 177-214. -/
def nand_spi_flash_page_write {δ : Type} (D : Device δ) (fuel : Nat) (st : State δ)
    (row_address col_address : Nat) (data : List Nat) (data_len : Nat) : Reply δ :=
  if data_len + col_address ≥ NAND_FLASH_PER_PAGE_SIZE then ⟨some NSF_ERR_DATA_TOO_BIG, st⟩
  else if row_address ≥ NAND_FLASH_ROW_COUNT then ⟨some NSF_ERR_DATA_TOO_BIG, st⟩
  else
    let w := page_write_issue D st row_address col_address data data_len
    match w.1 with
    | none => ⟨none, w.2⟩
    | some rc1 =>
      if rc1 ≠ 0 then ⟨some NSF_ERROR_SPI, w.2⟩
      else
        let p := nand_spi_flash_read_status D fuel w.2
        match p.1 with
        | none => ⟨none, p.2⟩
        | some s =>
          if s &&& NSF_ECC_MASK = NSF_ECC_MASK then ⟨some NSF_ERR_BAD_BLOCK, p.2⟩
          else ⟨some (data_len : Int), p.2⟩

/-- Lines 221-236 of `nand_spi_flash_block_erase`: write-enable and the
block-erase command.  The first component is `NSF_ERROR_SPI` for the early
exits of lines 225 and 235, else `NSF_ERR_OK`. -/
def block_erase_issue {δ : Type} (D : Device δ) (st : State δ) (row_address : Nat) :
    Option Int × State δ :=
  let st1 := poke 0 NSF_CMD_WRITE_ENABLE st
  let t1 := nand_spi_transfer D st1 1 0
  match t1.1 with
  | none => (none, t1.2)
  | some rc1 =>
    if rc1 ≠ 0 then (some NSF_ERROR_SPI, t1.2)
    else
      let st2 := poke_row row_address (poke 0 NSF_CMD_BLOCK_ERASE t1.2)
      let t2 := nand_spi_transfer D st2 4 0
      match t2.1 with
      | none => (none, t2.2)
      | some rc2 =>
        if rc2 ≠ 0 then (some NSF_ERROR_SPI, t2.2)
        else (some NSF_ERR_OK, t2.2)

/-- Lines 219-240. -/
def nand_spi_flash_block_erase {δ : Type} (D : Device δ) (fuel : Nat) (st : State δ)
    (row_address : Nat) : Reply δ :=
  let e := block_erase_issue D st row_address
  match e.1 with
  | none => ⟨none, e.2⟩
  | some rc1 =>
    if rc1 ≠ 0 then ⟨some NSF_ERROR_SPI, e.2⟩
    else
      let p := nand_spi_flash_read_status D fuel e.2
      match p.1 with
      | none => ⟨none, p.2⟩
      | some s =>
        if s &&& NSF_ERS_F_MASK ≠ 0 then ⟨some NSF_ERR_ERASE, p.2⟩ else ⟨some NSF_ERR_OK, p.2⟩

/-- Lines 244-273. -/
def nand_spi_flash_str_error (error : Int) : String :=
  if error ≥ 0 then "NSF_ERR_OK"
  else if error = -1 then "NSF_ERR_NOT_INITED"
  else if error = -2 then "NSF_ERR_ALREADY_INITED"
  else if error = -3 then "NSF_ERR_UNKNOWN_DEVICE"
  else if error = -4 then "NSF_ERR_READ_ONLY"
  else if error = -5 then "NSF_ERR_BAD_BLOCK"
  else if error = -6 then "NSF_ERR_DATA_TOO_BIG"
  else if error = -7 then "NSF_ERR_ERASE"
  else if error = -8 then "NSF_ERR_PROGRAM"
  else if error = -100 then "NSF_ERROR_SPI"
  else "NSF_UNKNOWN_ERROR"

/-! ## Frames, as they appear in the trace -/

/-- The get-feature(status) exchange of one round of the status poll. -/
def status_poll : Xfer :=
  ⟨[NSF_CMD_GET_FEATURE, NSF_CMD_FEATURE_STATUS], 1⟩

/-- A row-addressed command: opcode and the row in three bytes, most
significant first, nothing read back. -/
def row_command (opcode row : Nat) : Xfer :=
  ⟨[opcode, (row >>> 16) &&& 0xFF, (row >>> 8) &&& 0xFF, row &&& 0xFF], 0⟩

/-- The cache-read transfer: opcode 0x03, the column in two bytes, a dummy
byte, and `length` bytes read back. -/
def cache_read (column length : Nat) : Xfer :=
  ⟨[0x03, (column >>> 8) &&& 0xFF, column &&& 0xFF, 0x00], length⟩

/-- The state in which lines 156-170 of `nand_spi_flash_page_read` start when
the request passed the bounds check and the ECC test: the state of the call
on a cache hit, the state left by the cache load and its poll on a miss. -/
def before_cache_read {δ : Type} (D : Device δ) (fuel : Nat) (st : State δ) (row : Nat) :
    State δ :=
  if st.read_row_addr_in_cache ≠ row then
    { (page_read_load D fuel st row).2.2 with read_row_addr_in_cache := row }
  else st

/-- Statics at program start: the buffer is zero-initialised and the tracker
starts at `NAND_FLASH_ROW_COUNT` (line 35). -/
def boot {δ : Type} (d : δ) : State δ :=
  { m_nsf_buffer := fun _ => 0
    read_row_addr_in_cache := NAND_FLASH_ROW_COUNT
    dev := d
    trace := []
    extent := 0 }

/-! ## Chips used to exercise the driver -/

/-- Modelled from the spec: the chip behind the transport adapter (section 6)
with the command set of section 4.1.  It has the cell array, the single
on-die page buffer, the one-shot write-enable latch that program-execute and
block-erase require and clear, and an operation-in-progress countdown:
after a reset, cache load, program or erase the next `t_busy` status polls
answer with the operation-in-progress bit set.  Cells are good, so the ECC
and fail fields of the status byte stay clear.  Block protection is not
modelled: the chip is taken to be unlocked. -/
structure Chip where
  cells : Nat → Nat → Nat
  page_buffer : Nat → Nat
  write_enable_latch : Bool
  busy : Nat
  t_busy : Nat

/-- Row address carried by bytes 1..3 of a frame, most significant first. -/
def frame_row (tx : List Nat) : Nat :=
  65536 * tx.getD 1 0 + 256 * tx.getD 2 0 + tx.getD 3 0

/-- Column address carried by bytes 1..2 of a frame, most significant first. -/
def frame_col (tx : List Nat) : Nat :=
  256 * tx.getD 1 0 + tx.getD 2 0

/-- Modelled from the spec: one exchange with the chip.  The bytes written
stay in place in the buffer (the adapter clocks the answer in "starting at
offset write_length"); the answer of get-feature and of the cache read
follows them. -/
def chip_transfer (c : Chip) (tx : List Nat) (_n : Nat) : Chip × (Nat → Nat) :=
  let op := tx.getD 0 0
  let echo : Nat → Nat := fun i => tx.getD i 0
  if op = NSF_CMD_GET_FEATURE ∧ tx.getD 1 0 = NSF_CMD_FEATURE_STATUS then
    ({ c with busy := c.busy - 1 },
     fun i => if i < tx.length then echo i else if c.busy = 0 then 0 else NSF_OIP_MASK)
  else if op = NSF_CMD_WRITE_ENABLE then
    ({ c with write_enable_latch := true }, echo)
  else if op = NSF_CMD_RESET then
    ({ c with write_enable_latch := false, busy := c.t_busy }, echo)
  else if op = NSF_CMD_READ_CELL_TO_CACHE then
    ({ c with page_buffer := c.cells (frame_row tx), busy := c.t_busy }, echo)
  else if op = NSF_CMD_READ_FROM_CACHE then
    (c, fun i => if i < tx.length then echo i else c.page_buffer (frame_col tx + (i - tx.length)))
  else if op = NSF_CMD_PROGRAM_LOAD then
    ({ c with
       page_buffer := fun k =>
         if frame_col tx ≤ k ∧ k < frame_col tx + (tx.length - 3) then
           tx.getD (k - frame_col tx + 3) 0
         else c.page_buffer k },
     echo)
  else if op = NSF_CMD_PROGRAM_EXECUTE then
    if c.write_enable_latch then
      ({ c with
         cells := fun r => if r = frame_row tx then c.page_buffer else c.cells r
         write_enable_latch := false
         busy := c.t_busy },
       echo)
    else (c, echo)
  else if op = NSF_CMD_BLOCK_ERASE then
    if c.write_enable_latch then
      ({ c with
         cells := fun r =>
           if r / NAND_FLASH_PAGE_COUNT_PER_BLOCK = frame_row tx / NAND_FLASH_PAGE_COUNT_PER_BLOCK
           then fun _ => 0xFF else c.cells r
         write_enable_latch := false
         busy := c.t_busy },
       echo)
    else (c, echo)
  else (c, echo)

/-- The chip model as a `Device`. -/
def chip : Device Chip := ⟨chip_transfer⟩

/-- An erased chip at power-on: every cell reads 0xFF, the latch is clear, and
each operation keeps the chip busy for two status polls. -/
def fresh_chip : Chip :=
  { cells := fun _ _ => 0xFF
    page_buffer := fun _ => 0xFF
    write_enable_latch := false
    busy := 0
    t_busy := 2 }

/-- A bus stub for examples: successive get-feature polls are answered with
the listed status bytes in turn (then with 0), every other frame with
zeros. -/
def scripted : Device (List Nat) :=
  ⟨fun q tx _ =>
    if tx.getD 0 0 = NSF_CMD_GET_FEATURE then (q.tail, fun _ => q.headD 0)
    else (q, fun _ => 0)⟩

/-- A bus stub for examples: a chip that never gets ready.  Every byte it
answers is 0x01, so every status poll finds the operation-in-progress bit
set. -/
def stuck : Device Unit :=
  ⟨fun d _ _ => (d, fun _ => NSF_OIP_MASK)⟩

/-! ## States used in the examples -/

/-- The driver and an erased chip after `nand_spi_flash_init`: the chip's
write-enable latch is set. -/
def after_init : State Chip :=
  (nand_spi_flash_init chip 5 (boot fresh_chip)).st

/-- The state after `after_init` and one 16-byte write of 0x11 to row 5, which
has used up the latch set by `nand_spi_flash_init`. -/
def after_first_write : State Chip :=
  (nand_spi_flash_page_write chip 5 after_init 5 0 (List.replicate 16 0x11) 16).st

/-! ## The chip's answers to the status poll -/

/-- The chip state after `k` get-feature(status) exchanges. -/
def after_polls {δ : Type} (D : Device δ) : Nat → δ → δ
  | 0, d => d
  | k + 1, d =>
    after_polls D k (D.spi_transfer d [NSF_CMD_GET_FEATURE, NSF_CMD_FEATURE_STATUS] 3).1

/-- The status byte the chip in state `d` answers to get-feature(status)
exchange number `k` (counted from 0), as it lands in `m_nsf_buffer[2]`. -/
def status_answer {δ : Type} (D : Device δ) (k : Nat) (d : δ) : Nat :=
  (D.spi_transfer (after_polls D k d) [NSF_CMD_GET_FEATURE, NSF_CMD_FEATURE_STATUS] 3).2 2 % 256

/-- The chip state after the read-identifier and reset exchanges that open
`nand_spi_flash_init`. -/
def after_reset {δ : Type} (D : Device δ) (d : δ) : δ :=
  (D.spi_transfer (D.spi_transfer d [NSF_CMD_READ_ID, 0x00] 4).1 [NSF_CMD_RESET] 1).1

/-! ## What the trace says about the chip's page buffer -/

/-- The row the chip's page buffer was last loaded with, read off a trace: a
read-cell-to-cache frame sets it to the row the frame carries, a program-load
frame clears it, every other frame leaves it. -/
def loaded_row (trace : List Xfer) : Option Nat :=
  trace.foldl
    (fun acc x =>
      if x.tx.head? = some NSF_CMD_READ_CELL_TO_CACHE then some (frame_row x.tx)
      else if x.tx.head? = some NSF_CMD_PROGRAM_LOAD then none
      else acc)
    none

/-- Tracker coherence: when the tracker holds a row, that row is the one the
page buffer was last loaded with and no program-load has been sent since. -/
def coherent {δ : Type} (st : State δ) : Prop :=
  st.read_row_addr_in_cache < NAND_FLASH_ROW_COUNT →
    loaded_row st.trace = some st.read_row_addr_in_cache

/-- Modelled from the spec: the chip model with a list of fault bytes.  Each
time the chip answers a status poll as idle, the next byte of the list is
or-ed into the status byte (0x30 reports an uncorrectable ECC error, section
7); everything else is `chip_transfer`. -/
def faulty_chip : Device (Chip × List Nat) :=
  ⟨fun s tx n =>
    let r := chip_transfer s.1 tx n
    if tx.getD 0 0 = NSF_CMD_GET_FEATURE ∧ s.1.busy = 0 then
      ((r.1, s.2.tail), fun i => if i < tx.length then r.2 i else r.2 i ||| s.2.headD 0)
    else ((r.1, s.2), r.2)⟩

/-- A chip in which every byte of row `r` holds `r % 256`. -/
def numbered_chip : Chip :=
  { cells := fun r _ => r % 256
    page_buffer := fun _ => 0xFF
    write_enable_latch := false
    busy := 0
    t_busy := 1 }

/-- The state after a 16-byte read of row 5 that succeeds and a 16-byte read of
row 7 whose cache load reports an uncorrectable ECC error. -/
def after_failed_load : State (Chip × List Nat) :=
  (nand_spi_flash_page_read faulty_chip 5
    (nand_spi_flash_page_read faulty_chip 5 (boot (numbered_chip, [0x00, 0x30])) 5 0 16).st
    7 0 16).st

/-- The state after `after_init`, a 16-byte read of row 5, and a second
`nand_spi_flash_init`. -/
def init_after_read : State Chip :=
  (nand_spi_flash_init chip 5 (nand_spi_flash_page_read chip 5 after_init 5 0 16).st).st

/-- The state after `after_init`, a 16-byte read of row 5, and
`nand_spi_flash_reset_unlock`. -/
def reset_after_read : State Chip :=
  (nand_spi_flash_reset_unlock chip 5 (nand_spi_flash_page_read chip 5 after_init 5 0 16).st).st

/-! ## Sequences of calls and the write-enable rule -/

section Basics

variable {δ : Type}

theorem range_two : List.range 2 = [0, 1] := rfl

theorem range_four : List.range 4 = [0, 1, 2, 3] := rfl

@[simp] theorem poke_cache (i : Fin NSF_BUFFER_SIZE) (v : Nat) (st : State δ) :
    (poke i v st).read_row_addr_in_cache = st.read_row_addr_in_cache := rfl

@[simp] theorem poke_trace (i : Fin NSF_BUFFER_SIZE) (v : Nat) (st : State δ) :
    (poke i v st).trace = st.trace := rfl

@[simp] theorem poke_dev (i : Fin NSF_BUFFER_SIZE) (v : Nat) (st : State δ) :
    (poke i v st).dev = st.dev := rfl

theorem poke_buffer (i j : Fin NSF_BUFFER_SIZE) (v : Nat) (st : State δ) :
    (poke i v st).m_nsf_buffer j = if j = i then v % 256 else st.m_nsf_buffer j := rfl

/-- A byte inside the array, read through `peek`. -/
theorem peek_lt (st : State δ) (i : Nat) (h : i < NSF_BUFFER_SIZE) :
    peek st i = st.m_nsf_buffer ⟨i, h⟩ := by
  simp [peek, h]

theorem peek_two (st : State δ) : peek st 2 = st.m_nsf_buffer 2 := rfl

theorem peek_poke (i : Fin NSF_BUFFER_SIZE) (v j : Nat) (st : State δ) :
    peek (poke i v st) j = if j = i.val then v % 256 else peek st j := by
  unfold peek poke
  by_cases h : j < NSF_BUFFER_SIZE
  · simp only [h, dite_true]
    by_cases hj : j = i.val
    · have e : (⟨j, h⟩ : Fin NSF_BUFFER_SIZE) = i := Fin.ext hj
      simp [e, hj]
    · have e : (⟨j, h⟩ : Fin NSF_BUFFER_SIZE) ≠ i := fun e => hj (congrArg Fin.val e)
      simp [e, hj]
  · have hj : j ≠ i.val := fun e => h (e ▸ i.isLt)
    simp [h, hj]

@[simp] theorem peek_poke0 (v j : Nat) (st : State δ) :
    peek (poke 0 v st) j = if j = 0 then v % 256 else peek st j := peek_poke 0 v j st

@[simp] theorem peek_poke1 (v j : Nat) (st : State δ) :
    peek (poke 1 v st) j = if j = 1 then v % 256 else peek st j := peek_poke 1 v j st

@[simp] theorem peek_poke2 (v j : Nat) (st : State δ) :
    peek (poke 2 v st) j = if j = 2 then v % 256 else peek st j := peek_poke 2 v j st

@[simp] theorem peek_poke3 (v j : Nat) (st : State δ) :
    peek (poke 3 v st) j = if j = 3 then v % 256 else peek st j := peek_poke 3 v j st

/-- The bytes of a range inside the array, read through `peek`. -/
theorem buffer_bytes_eq (st : State δ) (off n : Nat) (h : off + n ≤ NSF_BUFFER_SIZE) :
    buffer_bytes st off n h = (List.range n).map (fun i => peek st (off + i)) := by
  unfold buffer_bytes
  rw [List.pmap_eq_map_attach]
  apply List.ext_getElem
  · simp
  · intro i h1 h2
    have hi : i < n := by simpa using h2
    have hlt : off + i < NSF_BUFFER_SIZE := Nat.lt_of_lt_of_le (Nat.add_lt_add_left hi off) h
    simp [peek, hlt]

theorem buffer_bytes_zero (st : State δ) (n : Nat) (h : 0 + n ≤ NSF_BUFFER_SIZE) :
    buffer_bytes st 0 n h = (List.range n).map (peek st) := by
  rw [buffer_bytes_eq]
  apply List.map_congr_left
  intro i _
  rw [Nat.zero_add]

/-- An exchange that fits the array returns `NSF_ERR_OK`. -/
theorem transfer_rc (D : Device δ) (st : State δ) (a b : Nat) (h : a + b ≤ 255) :
    (nand_spi_transfer D st a b).1 = some 0 := by
  have h1 : a ≤ NSF_BUFFER_SIZE := by simp only [NSF_BUFFER_SIZE]; omega
  have h2 : a + b ≤ NSF_BUFFER_SIZE := h
  unfold nand_spi_transfer
  rw [dif_pos h1]
  dsimp only
  rw [if_pos h2]

/-- An exchange that does not fit the array has no return value. -/
theorem transfer_rc_none (D : Device δ) (st : State δ) (a b : Nat) (h : 255 < a + b) :
    (nand_spi_transfer D st a b).1 = none := by
  have h2 : ¬ (a + b ≤ NSF_BUFFER_SIZE) := by simp only [NSF_BUFFER_SIZE]; omega
  unfold nand_spi_transfer
  split
  · simp [h2]
  · rfl

/-- An exchange that fits the array leaves the cache tracker alone. -/
@[simp] theorem transfer_cache (D : Device δ) (st : State δ) (a b : Nat) (h : a + b ≤ 255) :
    (nand_spi_transfer D st a b).2.read_row_addr_in_cache = st.read_row_addr_in_cache := by
  have h1 : a ≤ NSF_BUFFER_SIZE := by simp only [NSF_BUFFER_SIZE]; omega
  have h2 : a + b ≤ NSF_BUFFER_SIZE := h
  unfold nand_spi_transfer
  rw [dif_pos h1]
  dsimp only
  rw [if_pos h2]

/-- An exchange whose frame lies inside the array puts the frame on the bus,
whether or not the bytes to be received fit. -/
theorem transfer_trace (D : Device δ) (st : State δ) (a b : Nat) (h : a ≤ 255) :
    (nand_spi_transfer D st a b).2.trace
      = st.trace ++ [⟨(List.range a).map (peek st), b⟩] := by
  have h1 : a ≤ NSF_BUFFER_SIZE := by simp only [NSF_BUFFER_SIZE]; omega
  unfold nand_spi_transfer
  simp only [h1, dite_true, buffer_bytes_zero]
  split <;> rfl

theorem transfer_dev (D : Device δ) (st : State δ) (a b : Nat) (h : a ≤ 255) :
    (nand_spi_transfer D st a b).2.dev
      = (D.spi_transfer st.dev ((List.range a).map (peek st)) (a + b)).1 := by
  have h1 : a ≤ NSF_BUFFER_SIZE := by simp only [NSF_BUFFER_SIZE]; omega
  unfold nand_spi_transfer
  simp only [h1, dite_true, buffer_bytes_zero]
  split <;> rfl

/-- The bytes received by an exchange that fits the array. -/
theorem transfer_buffer (D : Device δ) (st : State δ) (a b : Nat) (h : a + b ≤ 255)
    (j : Fin NSF_BUFFER_SIZE) :
    (nand_spi_transfer D st a b).2.m_nsf_buffer j
      = if j.val < a + b then
          (D.spi_transfer st.dev ((List.range a).map (peek st)) (a + b)).2 j.val % 256
        else st.m_nsf_buffer j := by
  have h1 : a ≤ NSF_BUFFER_SIZE := by simp only [NSF_BUFFER_SIZE]; omega
  have h2 : a + b ≤ NSF_BUFFER_SIZE := h
  unfold nand_spi_transfer
  simp only [h1, h2, dite_true, if_true, buffer_bytes_zero]

theorem peek_transfer (D : Device δ) (st : State δ) (a b : Nat) (h : a + b ≤ 255) (j : Nat) :
    peek (nand_spi_transfer D st a b).2 j
      = if j < a + b then
          (D.spi_transfer st.dev ((List.range a).map (peek st)) (a + b)).2 j % 256
        else peek st j := by
  by_cases hj : j < NSF_BUFFER_SIZE
  · rw [peek_lt _ j hj, peek_lt _ j hj, transfer_buffer D st a b h]
  · have hj2 : ¬ j < a + b := by simp only [NSF_BUFFER_SIZE] at hj; omega
    simp [peek, hj, hj2]

/-- The get-feature(status) exchange of the status poll. -/
theorem poll_step_trace (D : Device δ) (st : State δ) :
    (nand_spi_transfer D (poke 1 NSF_CMD_FEATURE_STATUS (poke 0 NSF_CMD_GET_FEATURE st)) 2 1).2.trace
      = st.trace ++ [⟨[NSF_CMD_GET_FEATURE, NSF_CMD_FEATURE_STATUS], 1⟩] := by
  rw [transfer_trace _ _ _ _ (by decide)]
  simp [range_two, NSF_CMD_GET_FEATURE, NSF_CMD_FEATURE_STATUS]

/-- When the poll loop ends, byte 2 of the buffer has the
operation-in-progress bit clear. -/
theorem poll_loop_done (D : Device δ) (fuel : Nat) (st : State δ)
    (h : (poll_loop D fuel st).1 = true) :
    (poll_loop D fuel st).2.m_nsf_buffer 2 &&& NSF_OIP_MASK = 0 := by
  induction fuel generalizing st with
  | zero => simpa [poll_loop] using h
  | succ n ih =>
    unfold poll_loop at h ⊢
    by_cases hb : st.m_nsf_buffer 2 &&& NSF_OIP_MASK = 0
    · simp [hb]
    · simp only [ne_eq, hb, not_false_eq_true, if_true] at h ⊢
      exact ih _ h

/-- The poll loop leaves the cache tracker alone. -/
theorem poll_loop_cache (D : Device δ) (fuel : Nat) (st : State δ) :
    (poll_loop D fuel st).2.read_row_addr_in_cache = st.read_row_addr_in_cache := by
  induction fuel generalizing st with
  | zero => rfl
  | succ n ih =>
    unfold poll_loop
    by_cases hb : st.m_nsf_buffer 2 &&& NSF_OIP_MASK = 0
    · simp [hb]
    · simp only [ne_eq, hb, not_false_eq_true, if_true]
      rw [ih, transfer_cache _ _ _ _ (by decide)]; rfl

/-- The poll loop issues get-feature(status) exchanges and nothing else. -/
theorem poll_loop_trace (D : Device δ) (fuel : Nat) (st : State δ) :
    ∃ k, k ≤ fuel ∧ (poll_loop D fuel st).2.trace
      = st.trace ++ List.replicate k ⟨[NSF_CMD_GET_FEATURE, NSF_CMD_FEATURE_STATUS], 1⟩ := by
  induction fuel generalizing st with
  | zero => exact ⟨0, le_refl _, by simp [poll_loop]⟩
  | succ n ih =>
    unfold poll_loop
    by_cases hb : st.m_nsf_buffer 2 &&& NSF_OIP_MASK = 0
    · exact ⟨0, Nat.zero_le _, by simp [hb]⟩
    · simp only [ne_eq, hb, not_false_eq_true, if_true]
      obtain ⟨k, hk, e⟩ := ih
        (nand_spi_transfer D (poke 1 NSF_CMD_FEATURE_STATUS (poke 0 NSF_CMD_GET_FEATURE st)) 2 1).2
      refine ⟨k + 1, Nat.succ_le_succ hk, ?_⟩
      rw [e, poll_step_trace, List.append_assoc]
      rfl

theorem read_status_state (D : Device δ) (fuel : Nat) (st : State δ) :
    (nand_spi_flash_read_status D fuel st).2 = (poll_loop D fuel (poke 2 NSF_OIP_MASK st)).2 := by
  unfold nand_spi_flash_read_status
  dsimp only
  split <;> rfl

theorem read_status_cache (D : Device δ) (fuel : Nat) (st : State δ) :
    (nand_spi_flash_read_status D fuel st).2.read_row_addr_in_cache
      = st.read_row_addr_in_cache := by
  rw [read_status_state, poll_loop_cache]; rfl

theorem read_status_trace (D : Device δ) (fuel : Nat) (st : State δ) :
    ∃ k, k ≤ fuel ∧ (nand_spi_flash_read_status D fuel st).2.trace
      = st.trace ++ List.replicate k ⟨[NSF_CMD_GET_FEATURE, NSF_CMD_FEATURE_STATUS], 1⟩ := by
  obtain ⟨k, hk, e⟩ := poll_loop_trace D fuel (poke 2 NSF_OIP_MASK st)
  refine ⟨k, hk, ?_⟩
  rw [read_status_state, e]; rfl

/-- The copy to the caller of a range inside the array. -/
theorem memcpy_out_fit (st : State δ) (off len : Nat) (h : off + len ≤ 255) :
    memcpy_out off len st = some ((List.range len).map (fun i => peek st (off + i))) := by
  have h' : off + len ≤ NSF_BUFFER_SIZE := h
  simp [memcpy_out, h', buffer_bytes_eq]

theorem memcpy_out_none (st : State δ) (off len : Nat) (h : 255 < off + len) :
    memcpy_out off len st = none := by
  have h' : ¬ (off + len ≤ NSF_BUFFER_SIZE) := by simp only [NSF_BUFFER_SIZE]; omega
  simp [memcpy_out, h']

/-- Lines 156-170 for a read that fits the array: the call returns `length`
and hands over the bytes at offsets 4 .. 4+length-1. -/
theorem page_read_transfer_fit (D : Device δ) (st : State δ) (column length : Nat)
    (h : 4 + length ≤ 255) :
    page_read_transfer D st column length
      = ⟨some (length : Int),
         (List.range length).map (fun i =>
           peek (nand_spi_transfer D
             (poke 3 0x00 (poke 2 column (poke 1 ((column &&& 0xff00) >>> 8)
               (poke 0 NSF_CMD_READ_FROM_CACHE st)))) 4 length).2 (4 + i)),
         (nand_spi_transfer D
           (poke 3 0x00 (poke 2 column (poke 1 ((column &&& 0xff00) >>> 8)
             (poke 0 NSF_CMD_READ_FROM_CACHE st)))) 4 length).2⟩ := by
  unfold page_read_transfer
  simp only [transfer_rc _ _ _ _ h, memcpy_out_fit _ _ _ h, ne_eq, not_true_eq_false, if_false]

/-- Lines 156-170 for a read that does not fit the array: the exchange runs
past it and the call has no return value. -/
theorem page_read_transfer_over (D : Device δ) (st : State δ) (column length : Nat)
    (h : 255 < 4 + length) :
    page_read_transfer D st column length
      = ⟨none, [],
         (nand_spi_transfer D
           (poke 3 0x00 (poke 2 column (poke 1 ((column &&& 0xff00) >>> 8)
             (poke 0 NSF_CMD_READ_FROM_CACHE st)))) 4 length).2⟩ := by
  unfold page_read_transfer
  simp only [transfer_rc_none _ _ _ _ h]

theorem page_read_transfer_ret (D : Device δ) (st : State δ) (column length : Nat)
    (h : 4 + length ≤ 255) :
    (page_read_transfer D st column length).ret = some (length : Int) := by
  rw [page_read_transfer_fit D st column length h]

theorem page_read_transfer_ret_none (D : Device δ) (st : State δ) (column length : Nat)
    (h : 255 < 4 + length) :
    (page_read_transfer D st column length).ret = none := by
  rw [page_read_transfer_over D st column length h]

/-- The state left by lines 156-170, whether or not the read fits. -/
theorem page_read_transfer_st (D : Device δ) (st : State δ) (column length : Nat) :
    (page_read_transfer D st column length).st
      = (nand_spi_transfer D
           (poke 3 0x00 (poke 2 column (poke 1 ((column &&& 0xff00) >>> 8)
             (poke 0 NSF_CMD_READ_FROM_CACHE st)))) 4 length).2 := by
  by_cases h : 4 + length ≤ 255
  · rw [page_read_transfer_fit D st column length h]
  · rw [page_read_transfer_over D st column length (by omega)]

end Basics

/-! ## Unfolding the calls -/

section Unfold

variable {δ : Type}

theorem memcpy_in_fit (off : Nat) (data : List Nat) (len : Nat) (st : State δ)
    (h : off + len ≤ 255) : (memcpy_in off data len st).1 = true := by
  have h' : off + len ≤ NSF_BUFFER_SIZE := h
  simp [memcpy_in, h']

theorem memcpy_in_over (off : Nat) (data : List Nat) (len : Nat) (st : State δ)
    (h : 255 < off + len) : (memcpy_in off data len st).1 = false := by
  have h' : ¬ (off + len ≤ NSF_BUFFER_SIZE) := by simp only [NSF_BUFFER_SIZE]; omega
  simp [memcpy_in, h']

@[simp] theorem memcpy_in_trace (off : Nat) (data : List Nat) (len : Nat) (st : State δ) :
    (memcpy_in off data len st).2.trace = st.trace := by
  unfold memcpy_in
  split <;> rfl

@[simp] theorem memcpy_in_dev (off : Nat) (data : List Nat) (len : Nat) (st : State δ) :
    (memcpy_in off data len st).2.dev = st.dev := by
  unfold memcpy_in
  split <;> rfl

/-- The bytes of the array after a copy that fits. -/
theorem peek_memcpy_in (off : Nat) (data : List Nat) (len : Nat) (st : State δ)
    (h : off + len ≤ 255) (j : Nat) :
    peek (memcpy_in off data len st).2 j
      = if off ≤ j ∧ j < off + len then data.getD (j - off) 0 % 256 else peek st j := by
  have h' : off + len ≤ NSF_BUFFER_SIZE := h
  unfold memcpy_in
  rw [if_pos h']
  by_cases hj : j < NSF_BUFFER_SIZE
  · rw [peek_lt _ j hj, peek_lt _ j hj]
  · have hj2 : ¬ (off ≤ j ∧ j < off + len) := by simp only [NSF_BUFFER_SIZE] at hj; omega
    simp [peek, hj, hj2]

@[simp] theorem poke_extent (i : Fin NSF_BUFFER_SIZE) (v : Nat) (st : State δ) :
    (poke i v st).extent = max st.extent (i.val + 1) := rfl

@[simp] theorem transfer_extent (D : Device δ) (st : State δ) (a b : Nat) :
    (nand_spi_transfer D st a b).2.extent = max st.extent (a + b) := by
  unfold nand_spi_transfer
  split
  · dsimp only
    split <;> rfl
  · rfl

@[simp] theorem poke_row_extent (row : Nat) (st : State δ) :
    (poke_row row st).extent = max (max (max st.extent 2) 3) 4 := rfl

@[simp] theorem memcpy_in_extent (off : Nat) (data : List Nat) (len : Nat) (st : State δ) :
    (memcpy_in off data len st).2.extent = max st.extent (off + len) := by
  unfold memcpy_in
  split <;> rfl

@[simp] theorem poke_row_cache (row : Nat) (st : State δ) :
    (poke_row row st).read_row_addr_in_cache = st.read_row_addr_in_cache := rfl

@[simp] theorem poke_row_trace (row : Nat) (st : State δ) : (poke_row row st).trace = st.trace :=
  rfl

@[simp] theorem poke_row_dev (row : Nat) (st : State δ) : (poke_row row st).dev = st.dev := rfl

theorem page_read_load_rc (D : Device δ) (fuel : Nat) (st : State δ) (row : Nat) :
    (page_read_load D fuel st row).1 = some 0 := by
  unfold page_read_load
  simp only [transfer_rc _ _ _ _ (show 4 + 0 ≤ 255 by decide), ne_eq, not_true_eq_false, if_false]

/-- Lines 136-147: the cache load is the 0x13 exchange followed by the status
poll. -/
theorem page_read_load_eq (D : Device δ) (fuel : Nat) (st : State δ) (row : Nat) :
    (page_read_load D fuel st row).2
      = nand_spi_flash_read_status D fuel
          (nand_spi_transfer D (poke_row row (poke 0 NSF_CMD_READ_CELL_TO_CACHE st)) 4 0).2 := by
  unfold page_read_load
  simp only [transfer_rc _ _ _ _ (show 4 + 0 ≤ 255 by decide), ne_eq, not_true_eq_false, if_false]

/-- Lines 221-236: both exchanges of `block_erase_issue` fit the array. -/
theorem block_erase_issue_eq (D : Device δ) (st : State δ) (row : Nat) :
    block_erase_issue D st row
      = (some NSF_ERR_OK,
         (nand_spi_transfer D
           (poke_row row (poke 0 NSF_CMD_BLOCK_ERASE
             (nand_spi_transfer D (poke 0 NSF_CMD_WRITE_ENABLE st) 1 0).2)) 4 0).2) := by
  unfold block_erase_issue
  simp only [transfer_rc _ _ _ _ (show 1 + 0 ≤ 255 by decide),
    transfer_rc _ _ _ _ (show 4 + 0 ≤ 255 by decide), ne_eq, not_true_eq_false, if_false]

theorem block_erase_issue_rc (D : Device δ) (st : State δ) (row : Nat) :
    (block_erase_issue D st row).1 = some 0 := by
  rw [block_erase_issue_eq]

/-- Lines 183-204 for a payload that fits the array (`3 + length <= 255`). -/
theorem page_write_issue_fit (D : Device δ) (st : State δ) (row column : Nat) (data : List Nat)
    (length : Nat) (h : 3 + length ≤ 255) :
    page_write_issue D st row column data length
      = (some NSF_ERR_OK,
         (nand_spi_transfer D
           (poke_row row (poke 0 NSF_CMD_PROGRAM_EXECUTE
             { (nand_spi_transfer D
                 (memcpy_in 3 data length
                   (poke 2 column (poke 1 ((column &&& 0xff00) >>> 8)
                     (poke 0 NSF_CMD_PROGRAM_LOAD st)))).2 (length + 3) 0).2 with
               read_row_addr_in_cache := NAND_FLASH_ROW_COUNT })) 4 0).2) := by
  unfold page_write_issue
  simp only [memcpy_in_fit _ _ _ _ h, transfer_rc _ _ _ _ (show length + 3 + 0 ≤ 255 by omega),
    transfer_rc _ _ _ _ (show 4 + 0 ≤ 255 by decide), ne_eq, not_true_eq_false, if_false,
    Bool.true_eq_false]

/-- Lines 183-188 for a payload that does not fit: the copy of line 188 runs
past the array, before any exchange is issued and before the tracker is
touched. -/
theorem page_write_issue_over (D : Device δ) (st : State δ) (row column : Nat) (data : List Nat)
    (length : Nat) (h : 255 < 3 + length) :
    page_write_issue D st row column data length
      = (none,
         (memcpy_in 3 data length
           (poke 2 column (poke 1 ((column &&& 0xff00) >>> 8)
             (poke 0 NSF_CMD_PROGRAM_LOAD st)))).2) := by
  unfold page_write_issue
  simp only [memcpy_in_over _ _ _ _ h, if_true]

theorem page_write_issue_rc (D : Device δ) (st : State δ) (row column : Nat) (data : List Nat)
    (length : Nat) (h : 3 + length ≤ 255) :
    (page_write_issue D st row column data length).1 = some 0 := by
  rw [page_write_issue_fit D st row column data length h]

theorem page_write_issue_rc_none (D : Device δ) (st : State δ) (row column : Nat)
    (data : List Nat) (length : Nat) (h : 255 < 3 + length) :
    (page_write_issue D st row column data length).1 = none := by
  rw [page_write_issue_over D st row column data length h]

/-- Unfolding of `nand_spi_flash_page_write` for a request that fails the
bounds check. -/
theorem page_write_rejected (D : Device δ) (fuel : Nat) (st : State δ) (row column : Nat)
    (data : List Nat) (length : Nat) (h : column + length ≥ 2112 ∨ row ≥ 262144) :
    nand_spi_flash_page_write D fuel st row column data length
      = ⟨some NSF_ERR_DATA_TOO_BIG, st⟩ := by
  unfold nand_spi_flash_page_write
  by_cases h1 : length + column ≥ NAND_FLASH_PER_PAGE_SIZE
  · simp [h1]
  · have h2 : row ≥ NAND_FLASH_ROW_COUNT := by
      simp only [NAND_FLASH_PER_PAGE_SIZE, NAND_FLASH_ROW_COUNT,
        NAND_FLASH_PAGE_COUNT_PER_BLOCK, NAND_FLASH_BLOCK_COUNT] at h1 ⊢
      omega
    simp [h1, h2]

/-- Unfolding of `nand_spi_flash_page_write` for a request that passes the
bounds check and fits the array. -/
theorem page_write_accepted (D : Device δ) (fuel : Nat) (st : State δ) (row column : Nat)
    (data : List Nat) (length : Nat)
    (hcol : column + length < 2112) (hrow : row < 262144) (hfit : 3 + length ≤ 255) :
    nand_spi_flash_page_write D fuel st row column data length
      = match (nand_spi_flash_read_status D fuel
            (page_write_issue D st row column data length).2).1 with
        | none =>
          ⟨none, (nand_spi_flash_read_status D fuel
            (page_write_issue D st row column data length).2).2⟩
        | some s =>
          if s &&& NSF_ECC_MASK = NSF_ECC_MASK then
            ⟨some NSF_ERR_BAD_BLOCK, (nand_spi_flash_read_status D fuel
              (page_write_issue D st row column data length).2).2⟩
          else
            ⟨some (length : Int), (nand_spi_flash_read_status D fuel
              (page_write_issue D st row column data length).2).2⟩ := by
  have h1 : ¬ (length + column ≥ NAND_FLASH_PER_PAGE_SIZE) := by
    simp only [NAND_FLASH_PER_PAGE_SIZE]; omega
  have h2 : ¬ (row ≥ NAND_FLASH_ROW_COUNT) := by
    simp only [NAND_FLASH_ROW_COUNT, NAND_FLASH_PAGE_COUNT_PER_BLOCK, NAND_FLASH_BLOCK_COUNT]
    omega
  unfold nand_spi_flash_page_write
  simp only [h1, h2, if_false, page_write_issue_rc D st row column data length hfit, ne_eq,
    not_true_eq_false]

/-- Unfolding of `nand_spi_flash_page_write` for a request that passes the
bounds check and does not fit the array: the call ends at the copy of line
188, without a return value. -/
theorem page_write_over (D : Device δ) (fuel : Nat) (st : State δ) (row column : Nat)
    (data : List Nat) (length : Nat)
    (hcol : column + length < 2112) (hrow : row < 262144) (hover : 255 < 3 + length) :
    nand_spi_flash_page_write D fuel st row column data length
      = ⟨none,
         (memcpy_in 3 data length
           (poke 2 column (poke 1 ((column &&& 0xff00) >>> 8)
             (poke 0 NSF_CMD_PROGRAM_LOAD st)))).2⟩ := by
  have h1 : ¬ (length + column ≥ NAND_FLASH_PER_PAGE_SIZE) := by
    simp only [NAND_FLASH_PER_PAGE_SIZE]; omega
  have h2 : ¬ (row ≥ NAND_FLASH_ROW_COUNT) := by
    simp only [NAND_FLASH_ROW_COUNT, NAND_FLASH_PAGE_COUNT_PER_BLOCK, NAND_FLASH_BLOCK_COUNT]
    omega
  unfold nand_spi_flash_page_write
  simp only [h1, h2, if_false, page_write_issue_over D st row column data length hover]

/-- Unfolding of `nand_spi_flash_page_read` for a request that fails the
bounds check. -/
theorem page_read_rejected (D : Device δ) (fuel : Nat) (st : State δ) (row column length : Nat)
    (h : column + length ≥ 2112 ∨ row ≥ 262144) :
    nand_spi_flash_page_read D fuel st row column length
      = ⟨some NSF_ERR_DATA_TOO_BIG, [], st⟩ := by
  unfold nand_spi_flash_page_read
  by_cases h1 : length + column ≥ NAND_FLASH_PER_PAGE_SIZE
  · simp [h1]
  · have h2 : row ≥ NAND_FLASH_ROW_COUNT := by
      simp only [NAND_FLASH_PER_PAGE_SIZE, NAND_FLASH_ROW_COUNT,
        NAND_FLASH_PAGE_COUNT_PER_BLOCK, NAND_FLASH_BLOCK_COUNT] at h1 ⊢
      omega
    simp [h1, h2]

/-- Unfolding of `nand_spi_flash_page_read` for an accepted request on a
cache hit. -/
theorem page_read_hit (D : Device δ) (fuel : Nat) (st : State δ) (row column length : Nat)
    (hcol : column + length < 2112) (hrow : row < 262144)
    (hhit : st.read_row_addr_in_cache = row) :
    nand_spi_flash_page_read D fuel st row column length
      = page_read_transfer D st column length := by
  have h1 : ¬ (length + column ≥ NAND_FLASH_PER_PAGE_SIZE) := by
    simp only [NAND_FLASH_PER_PAGE_SIZE]; omega
  have h2 : ¬ (row ≥ NAND_FLASH_ROW_COUNT) := by
    simp only [NAND_FLASH_ROW_COUNT, NAND_FLASH_PAGE_COUNT_PER_BLOCK, NAND_FLASH_BLOCK_COUNT]
    omega
  unfold nand_spi_flash_page_read
  simp only [h1, h2, if_false, hhit, ne_eq, not_true_eq_false]

/-- Unfolding of `nand_spi_flash_page_read` for an accepted request on a
cache miss. -/
theorem page_read_miss (D : Device δ) (fuel : Nat) (st : State δ) (row column length : Nat)
    (hcol : column + length < 2112) (hrow : row < 262144)
    (hmiss : st.read_row_addr_in_cache ≠ row) :
    nand_spi_flash_page_read D fuel st row column length
      = match (page_read_load D fuel st row).2.1 with
        | none => ⟨none, [], (page_read_load D fuel st row).2.2⟩
        | some s =>
          if s &&& NSF_ECC_MASK = NSF_ECC_MASK then
            ⟨some NSF_ERR_BAD_BLOCK, [], (page_read_load D fuel st row).2.2⟩
          else
            page_read_transfer D
              { (page_read_load D fuel st row).2.2 with read_row_addr_in_cache := row }
              column length := by
  have h1 : ¬ (length + column ≥ NAND_FLASH_PER_PAGE_SIZE) := by
    simp only [NAND_FLASH_PER_PAGE_SIZE]; omega
  have h2 : ¬ (row ≥ NAND_FLASH_ROW_COUNT) := by
    simp only [NAND_FLASH_ROW_COUNT, NAND_FLASH_PAGE_COUNT_PER_BLOCK, NAND_FLASH_BLOCK_COUNT]
    omega
  unfold nand_spi_flash_page_read
  simp only [h1, h2, if_false, hmiss, ne_eq, not_false_eq_true, if_true, page_read_load_rc,
    not_true_eq_false]

/-- Lines 156-170 return `length` or, when the exchange runs past the array,
nothing. -/
theorem page_read_transfer_ret_cases (D : Device δ) (st : State δ) (column length : Nat) :
    (page_read_transfer D st column length).ret = none
      ∨ (page_read_transfer D st column length).ret = some (length : Int) := by
  by_cases h : 4 + length ≤ 255
  · exact Or.inr (page_read_transfer_ret D st column length h)
  · exact Or.inl (page_read_transfer_ret_none D st column length (by omega))

/-- An accepted read returns `length` or -5, or nothing. -/
theorem page_read_accepted_cases (D : Device δ) (fuel : Nat) (st : State δ)
    (row column length : Nat) (hcol : column + length < 2112) (hrow : row < 262144) :
    (nand_spi_flash_page_read D fuel st row column length).ret = none
      ∨ (nand_spi_flash_page_read D fuel st row column length).ret = some (length : Int)
      ∨ (nand_spi_flash_page_read D fuel st row column length).ret
          = some NSF_ERR_BAD_BLOCK := by
  by_cases hhit : st.read_row_addr_in_cache = row
  · rw [page_read_hit D fuel st row column length hcol hrow hhit]
    rcases page_read_transfer_ret_cases D st column length with h | h
    · exact Or.inl h
    · exact Or.inr (Or.inl h)
  · rw [page_read_miss D fuel st row column length hcol hrow hhit]
    split
    · exact Or.inl rfl
    · split
      · exact Or.inr (Or.inr rfl)
      · rcases page_read_transfer_ret_cases D
          { (page_read_load D fuel st row).2.2 with read_row_addr_in_cache := row }
          column length with h | h
        · exact Or.inl h
        · exact Or.inr (Or.inl h)

/-- An accepted write returns `length` or -5, or nothing. -/
theorem page_write_accepted_cases (D : Device δ) (fuel : Nat) (st : State δ)
    (row column : Nat) (data : List Nat) (length : Nat)
    (hcol : column + length < 2112) (hrow : row < 262144) :
    (nand_spi_flash_page_write D fuel st row column data length).ret = none
      ∨ (nand_spi_flash_page_write D fuel st row column data length).ret = some (length : Int)
      ∨ (nand_spi_flash_page_write D fuel st row column data length).ret
          = some NSF_ERR_BAD_BLOCK := by
  by_cases hfit : 3 + length ≤ 255
  · rw [page_write_accepted D fuel st row column data length hcol hrow hfit]
    split
    · exact Or.inl rfl
    · split
      · exact Or.inr (Or.inr rfl)
      · exact Or.inr (Or.inl rfl)
  · rw [page_write_over D fuel st row column data length hcol hrow (by omega)]
    exact Or.inl rfl

end Unfold

/-! ## Bounds check (C1) -/

/-- C1: `nand_spi_flash_page_read` and `nand_spi_flash_page_write` return
`NSF_ERR_DATA_TOO_BIG` (-6) exactly when `column + length >= 2112` or
`row >= 262144`, for all rows, columns and lengths (the sum is not reduced
modulo 65536); and when they do, the returned state is the state before the
call, so the cache tracker, the transfer buffer and the list of issued
exchanges are unchanged and nothing is copied to the caller. -/
theorem bounds_check_iff {δ : Type} (D : Device δ) (fuel : Nat) (st : State δ)
    (row column length : Nat) (data : List Nat) :
    ((nand_spi_flash_page_read D fuel st row column length).ret = some NSF_ERR_DATA_TOO_BIG
        ↔ (column + length ≥ 2112 ∨ row ≥ 262144))
    ∧ ((nand_spi_flash_page_write D fuel st row column data length).ret
          = some NSF_ERR_DATA_TOO_BIG
        ↔ (column + length ≥ 2112 ∨ row ≥ 262144))
    ∧ ((column + length ≥ 2112 ∨ row ≥ 262144) →
        (nand_spi_flash_page_read D fuel st row column length).st = st
        ∧ (nand_spi_flash_page_read D fuel st row column length).st.trace = st.trace
        ∧ (nand_spi_flash_page_read D fuel st row column length).out = []
        ∧ (nand_spi_flash_page_write D fuel st row column data length).st = st
        ∧ (nand_spi_flash_page_write D fuel st row column data length).st.trace = st.trace) := by
  have hr : ¬ ((length : Int) = -6) := by omega
  by_cases hb : column + length ≥ 2112 ∨ row ≥ 262144
  · rw [page_read_rejected D fuel st row column length hb,
      page_write_rejected D fuel st row column data length hb]
    simp [hb]
  · have hcol : column + length < 2112 := by omega
    have hrow : row < 262144 := by omega
    refine ⟨⟨fun h => ?_, fun h => absurd h hb⟩, ⟨fun h => ?_, fun h => absurd h hb⟩,
      fun h => absurd h hb⟩
    · rcases page_read_accepted_cases D fuel st row column length hcol hrow with e | e | e
        <;> rw [e] at h <;> simp [hr] at h
    · rcases page_write_accepted_cases D fuel st row column data length hcol hrow with e | e | e
        <;> rw [e] at h <;> simp [hr] at h

/-- Example for C1: column 65535 with length 2 (a sum that would be 1 in 16-bit
arithmetic), column 2100 with length 16, and row 262144 are all rejected
with -6. -/
theorem bounds_check_iff_witness :
    (nand_spi_flash_page_read scripted 1 (boot []) 5 65535 2).ret = some NSF_ERR_DATA_TOO_BIG
    ∧ (nand_spi_flash_page_read scripted 1 (boot []) 5 2100 16).ret = some NSF_ERR_DATA_TOO_BIG
    ∧ (nand_spi_flash_page_write scripted 1 (boot []) 262144 0 [0x00] 1).ret
        = some NSF_ERR_DATA_TOO_BIG :=
  ⟨(bounds_check_iff scripted 1 (boot []) 5 65535 2 []).1.mpr (Or.inl (by decide)),
   (bounds_check_iff scripted 1 (boot []) 5 2100 16 []).1.mpr (Or.inl (by decide)),
   (bounds_check_iff scripted 1 (boot []) 262144 0 1 [0x00]).2.1.mpr (Or.inr (by decide))⟩

/-! ## The status poll, round by round -/

section Polls

variable {δ : Type}

/-- A poll loop that starts with the bit clear ends at once. -/
theorem poll_loop_idle (D : Device δ) (fuel : Nat) (st : State δ)
    (h : st.m_nsf_buffer 2 &&& NSF_OIP_MASK = 0) : poll_loop D fuel st = (true, st) := by
  cases fuel with
  | zero => simp [poll_loop, h]
  | succ n => simp [poll_loop, h]

theorem poll_frame (st : State δ) :
    (List.range 2).map
        (peek (poke 1 NSF_CMD_FEATURE_STATUS (poke 0 NSF_CMD_GET_FEATURE st)))
      = [NSF_CMD_GET_FEATURE, NSF_CMD_FEATURE_STATUS] := by
  simp [range_two, NSF_CMD_FEATURE_STATUS, NSF_CMD_GET_FEATURE]

/-- One round of the status poll: the chip moves on by one exchange and its
answer lands in byte 2. -/
theorem poll_round (D : Device δ) (st : State δ) :
    (nand_spi_transfer D
        (poke 1 NSF_CMD_FEATURE_STATUS (poke 0 NSF_CMD_GET_FEATURE st)) 2 1).2.dev
      = after_polls D 1 st.dev
    ∧ (nand_spi_transfer D
        (poke 1 NSF_CMD_FEATURE_STATUS (poke 0 NSF_CMD_GET_FEATURE st)) 2 1).2.m_nsf_buffer 2
      = status_answer D 0 st.dev := by
  constructor
  · rw [transfer_dev _ _ _ _ (by decide), poll_frame]
    rfl
  · rw [transfer_buffer _ _ _ _ (by decide), poll_frame]
    rfl

theorem status_answer_succ (D : Device δ) (k : Nat) (d : δ) :
    status_answer D (k + 1) d = status_answer D k (after_polls D 1 d) := rfl

theorem after_polls_succ (D : Device δ) (k : Nat) (d : δ) :
    after_polls D (k + 1) d = after_polls D k (after_polls D 1 d) := rfl

/-- When the chip answers `n` polls with the operation-in-progress bit set and
poll `n` with it clear, the loop (entered with the bit set) runs `n + 1`
rounds. -/
theorem poll_loop_rounds (D : Device δ) (n : Nat) : ∀ (fuel : Nat) (st : State δ),
    st.m_nsf_buffer 2 &&& NSF_OIP_MASK ≠ 0 →
    (∀ k, k < n → status_answer D k st.dev &&& NSF_OIP_MASK ≠ 0) →
    status_answer D n st.dev &&& NSF_OIP_MASK = 0 →
    n < fuel →
    (poll_loop D fuel st).1 = true
    ∧ (poll_loop D fuel st).2.m_nsf_buffer 2 = status_answer D n st.dev
    ∧ (poll_loop D fuel st).2.trace = st.trace ++ List.replicate (n + 1) status_poll
    ∧ (poll_loop D fuel st).2.dev = after_polls D (n + 1) st.dev := by
  induction n with
  | zero =>
    intro fuel st hbit _ hidle hf
    obtain ⟨f, rfl⟩ : ∃ f, fuel = f + 1 := ⟨fuel - 1, by omega⟩
    obtain ⟨hd, h2⟩ := poll_round D st
    unfold poll_loop
    simp only [hbit, ne_eq, not_false_eq_true, if_true]
    rw [poll_loop_idle D f _ (by rw [h2]; exact hidle)]
    exact ⟨rfl, h2, by rw [poll_step_trace]; rfl, hd⟩
  | succ m ih =>
    intro fuel st hbit hbusy hidle hf
    obtain ⟨f, rfl⟩ : ∃ f, fuel = f + 1 := ⟨fuel - 1, by omega⟩
    obtain ⟨hd, h2⟩ := poll_round D st
    unfold poll_loop
    simp only [hbit, ne_eq, not_false_eq_true, if_true]
    have := ih f
      (nand_spi_transfer D (poke 1 NSF_CMD_FEATURE_STATUS (poke 0 NSF_CMD_GET_FEATURE st)) 2 1).2
      (by rw [h2]; exact hbusy 0 (Nat.succ_pos m))
      (by
        intro k hk
        rw [hd, ← status_answer_succ]
        exact hbusy (k + 1) (Nat.succ_lt_succ hk))
      (by rw [hd, ← status_answer_succ]; exact hidle)
      (by omega)
    obtain ⟨a, b, c, d⟩ := this
    refine ⟨a, ?_, ?_, ?_⟩
    · rw [b, hd, ← status_answer_succ]
    · rw [c, poll_step_trace, List.append_assoc]
      rfl
    · rw [d, hd, ← after_polls_succ]

/-- The same for `nand_spi_flash_read_status`, from any starting buffer. -/
theorem read_status_rounds (D : Device δ) (fuel : Nat) (st : State δ) (n : Nat)
    (hbusy : ∀ k, k < n → status_answer D k st.dev &&& NSF_OIP_MASK ≠ 0)
    (hidle : status_answer D n st.dev &&& NSF_OIP_MASK = 0)
    (hf : n < fuel) :
    (nand_spi_flash_read_status D fuel st).1 = some (status_answer D n st.dev)
    ∧ (nand_spi_flash_read_status D fuel st).2.trace
        = st.trace ++ List.replicate (n + 1) status_poll
    ∧ (nand_spi_flash_read_status D fuel st).2.dev = after_polls D (n + 1) st.dev := by
  have h := poll_loop_rounds D n fuel (poke 2 NSF_OIP_MASK st)
    (by simp [poke_buffer, NSF_OIP_MASK]) hbusy hidle hf
  refine ⟨?_, ?_, ?_⟩
  · unfold nand_spi_flash_read_status
    simp only [h.1, if_true]
    rw [h.2.1]
    rfl
  · rw [read_status_state, h.2.2.1]; rfl
  · rw [read_status_state, h.2.2.2]; rfl

/-- Against the chip that never gets ready the poll loop, entered with the
bit set, uses up any fuel: it has not ended, and it has issued one exchange
for each unit of fuel. -/
theorem stuck_poll_loop (fuel : Nat) : ∀ (st : State Unit),
    st.m_nsf_buffer 2 &&& NSF_OIP_MASK ≠ 0 →
    (poll_loop stuck fuel st).1 = false
    ∧ (poll_loop stuck fuel st).2.trace = st.trace ++ List.replicate fuel status_poll := by
  induction fuel with
  | zero =>
    intro st hbit
    refine ⟨?_, by simp [poll_loop]⟩
    show decide (st.m_nsf_buffer 2 &&& NSF_OIP_MASK = 0) = false
    exact decide_eq_false hbit
  | succ f ih =>
    intro st hbit
    have h2 : (nand_spi_transfer stuck
        (poke 1 NSF_CMD_FEATURE_STATUS (poke 0 NSF_CMD_GET_FEATURE st)) 2 1).2.m_nsf_buffer 2
        &&& NSF_OIP_MASK ≠ 0 := by
      rw [transfer_buffer _ _ _ _ (by decide)]
      show (NSF_OIP_MASK % 256) &&& NSF_OIP_MASK ≠ 0
      decide
    obtain ⟨a, b⟩ := ih _ h2
    unfold poll_loop
    simp only [hbit, ne_eq, not_false_eq_true, if_true]
    refine ⟨a, ?_⟩
    rw [b, poll_step_trace, List.append_assoc]
    rfl

/-- Against the chip that never gets ready `nand_spi_flash_read_status` gives
no status byte, whatever the fuel. -/
theorem stuck_read_status (fuel : Nat) (st : State Unit) :
    (nand_spi_flash_read_status stuck fuel st).1 = none
    ∧ (nand_spi_flash_read_status stuck fuel st).2.trace
        = st.trace ++ List.replicate fuel status_poll := by
  have h := stuck_poll_loop fuel (poke 2 NSF_OIP_MASK st) (by simp [poke_buffer, NSF_OIP_MASK])
  refine ⟨?_, ?_⟩
  · unfold nand_spi_flash_read_status
    simp [h.1]
  · rw [read_status_state, h.2]; rfl

end Polls

/-! ## Status poll and status decoding (C10, C5, C6) -/

section Status

variable {δ : Type}

/-- While the chip answers the polls with the operation-in-progress bit set,
the loop does not end. -/
theorem poll_loop_busy (D : Device δ) (fuel : Nat) : ∀ (st : State δ),
    st.m_nsf_buffer 2 &&& NSF_OIP_MASK ≠ 0 →
    (∀ k, k < fuel → status_answer D k st.dev &&& NSF_OIP_MASK ≠ 0) →
    (poll_loop D fuel st).1 = false := by
  induction fuel with
  | zero =>
    intro st hbit _
    show decide (st.m_nsf_buffer 2 &&& NSF_OIP_MASK = 0) = false
    exact decide_eq_false hbit
  | succ f ih =>
    intro st hbit hbusy
    obtain ⟨hd, h2⟩ := poll_round D st
    unfold poll_loop
    simp only [hbit, ne_eq, not_false_eq_true, if_true]
    apply ih
    · rw [h2]; exact hbusy 0 (Nat.succ_pos f)
    · intro k hk
      rw [hd, ← status_answer_succ]
      exact hbusy (k + 1) (Nat.succ_lt_succ hk)

/-- While the chip answers the polls with the operation-in-progress bit set,
`nand_spi_flash_read_status` gives no status byte. -/
theorem read_status_busy (D : Device δ) (fuel : Nat) (st : State δ)
    (hbusy : ∀ k, k < fuel → status_answer D k st.dev &&& NSF_OIP_MASK ≠ 0) :
    (nand_spi_flash_read_status D fuel st).1 = none := by
  have h := poll_loop_busy D fuel (poke 2 NSF_OIP_MASK st)
    (by simp [poke_buffer, NSF_OIP_MASK]) hbusy
  unfold nand_spi_flash_read_status
  simp [h]

/-- The result of `nand_spi_flash_block_erase` is the outcome of its status
poll, with the status byte mapped to -7 or 0. -/
theorem block_erase_ret (D : Device δ) (fuel : Nat) (st : State δ) (row : Nat) :
    (nand_spi_flash_block_erase D fuel st row).ret
        = (nand_spi_flash_read_status D fuel (block_erase_issue D st row).2).1.map
            (fun s => if s &&& 0x04 ≠ 0 then NSF_ERR_ERASE else NSF_ERR_OK)
    ∧ (nand_spi_flash_block_erase D fuel st row).st
        = (nand_spi_flash_read_status D fuel (block_erase_issue D st row).2).2 := by
  unfold nand_spi_flash_block_erase
  simp only [block_erase_issue_rc, ne_eq, not_true_eq_false, if_false]
  split
  · next h => simp [h]
  · next s h =>
    by_cases he : s &&& NSF_ERS_F_MASK = 0
    · simp [h, he]
    · simp [h, he]

end Status

/-- C10: whenever `nand_spi_flash_read_status` returns a status byte, that
byte has the operation-in-progress bit (0x01) clear, for every chip (every
way of answering the polls) and every starting state. -/
theorem read_status_oip_clear {δ : Type} (D : Device δ) (fuel : Nat) (st : State δ) (s : Nat)
    (h : (nand_spi_flash_read_status D fuel st).1 = some s) :
    s &&& 0x01 = 0 := by
  unfold nand_spi_flash_read_status at h
  by_cases hd : (poll_loop D fuel (poke 2 NSF_OIP_MASK st)).1 = true
  · simp only [hd, if_true, Option.some.injEq] at h
    rw [← h]
    exact poll_loop_done D fuel _ hd
  · simp [hd] at h

/-- Example for C10: the chip answers busy, busy, then 0x28; the poll returns
0x28, whose bit 0 is clear. -/
theorem read_status_oip_clear_witness :
    (nand_spi_flash_read_status scripted 5 (boot [0x01, 0x29, 0x28, 0x01])).1 = some 0x28
    ∧ 0x28 &&& 0x01 = 0 :=
  ⟨by decide,
   read_status_oip_clear scripted 5 (boot [0x01, 0x29, 0x28, 0x01]) 0x28 (by decide)⟩

/-- C6, as stated, fails: against a chip that answers every status poll with
0x01 (operation in progress), `nand_spi_flash_block_erase` returns no value,
however long the poll is run; run for 1000 rounds it has issued
write-enable, block-erase and 1000 status polls and is still polling. -/
theorem block_erase_never_returns :
    (¬ ∃ fuel v, (nand_spi_flash_block_erase stuck fuel (boot ()) 0).ret = some v)
    ∧ (nand_spi_flash_block_erase stuck 1000 (boot ()) 0).ret = none
    ∧ (nand_spi_flash_block_erase stuck 1000 (boot ()) 0).st.trace.length = 1002 := by
  have h : ∀ fuel, (nand_spi_flash_block_erase stuck fuel (boot ()) 0).ret = none := by
    intro fuel
    rw [(block_erase_ret stuck fuel (boot ()) 0).1,
      (stuck_read_status fuel (block_erase_issue stuck (boot ()) 0).2).1]
    rfl
  refine ⟨?_, h 1000, ?_⟩
  · rintro ⟨fuel, v, hv⟩
    rw [h fuel] at hv
    exact absurd hv (by simp)
  · rw [(block_erase_ret stuck 1000 (boot ()) 0).2,
      (stuck_read_status 1000 (block_erase_issue stuck (boot ()) 0).2).2]
    have e : (block_erase_issue stuck (boot ()) 0).2.trace.length = 2 := by decide
    rw [List.length_append, e, List.length_replicate]

/-- C6, amended: for every row, once the chip answers a status poll with the
operation-in-progress bit clear (after `n` polls answered with it set, the
fuel allowing `n + 1` polls), `nand_spi_flash_block_erase` returns
`NSF_ERR_ERASE` (-7) when that status byte `s` has bit 0x04 set and
`NSF_ERR_OK` (0) when it is clear, whatever the other bits are.  There is no
other way out of the function: for any number of poll rounds its result is
the outcome of the status poll mapped in this way, and as long as the chip
answers with the bit set it has not returned. -/
theorem block_erase_status_result {δ : Type} (D : Device δ) (fuel : Nat) (st : State δ)
    (row n s : Nat)
    (hbusy : ∀ k, k < n → status_answer D k (block_erase_issue D st row).2.dev &&& 0x01 ≠ 0)
    (hs : status_answer D n (block_erase_issue D st row).2.dev = s)
    (hidle : s &&& 0x01 = 0)
    (hfuel : n < fuel) :
    (nand_spi_flash_block_erase D fuel st row).ret
        = some (if s &&& 0x04 ≠ 0 then NSF_ERR_ERASE else NSF_ERR_OK)
    ∧ (∀ fuel2, (nand_spi_flash_block_erase D fuel2 st row).ret
        = (nand_spi_flash_read_status D fuel2 (block_erase_issue D st row).2).1.map
            (fun b => if b &&& 0x04 ≠ 0 then NSF_ERR_ERASE else NSF_ERR_OK))
    ∧ (∀ fuel2, fuel2 ≤ n → (nand_spi_flash_block_erase D fuel2 st row).ret = none) := by
  have hp := read_status_rounds D fuel (block_erase_issue D st row).2 n hbusy
    (by rw [hs]; exact hidle) hfuel
  refine ⟨?_, fun fuel2 => (block_erase_ret D fuel2 st row).1, ?_⟩
  · rw [(block_erase_ret D fuel st row).1, hp.1, hs]
    rfl
  · intro fuel2 hle
    rw [(block_erase_ret D fuel2 st row).1,
      read_status_busy D fuel2 _ (fun k hk => hbusy k (by omega))]
    rfl

/-- Example for C6 (amended): the chip answers busy and then 0x3C (erase-fail
set among other bits), and the erase of row 300000 returns -7; with 0x38 it
returns 0. -/
theorem block_erase_status_result_witness :
    (nand_spi_flash_block_erase scripted 4 (boot [0x01, 0x3C]) 300000).ret = some NSF_ERR_ERASE
    ∧ (nand_spi_flash_block_erase scripted 4 (boot [0x01, 0x38]) 300000).ret = some NSF_ERR_OK :=
  ⟨(block_erase_status_result scripted 4 (boot [0x01, 0x3C]) 300000 1 0x3C
      (by decide) (by decide) (by decide) (by decide)).1,
   (block_erase_status_result scripted 4 (boot [0x01, 0x38]) 300000 1 0x38
      (by decide) (by decide) (by decide) (by decide)).1⟩

/-! ## Frames put on the bus -/

section Frames

variable {δ : Type}

theorem shiftRight_and (a b i : Nat) : (a &&& b) >>> i = (a >>> i) &&& (b >>> i) := by
  apply Nat.eq_of_testBit_eq
  intro j
  simp [Nat.testBit_shiftRight]

theorem and_255_lt (x : Nat) : x &&& 0xFF < 256 := by
  have h := Nat.and_pow_two_sub_one_eq_mod x 8
  have h' : x &&& 0xFF = x % 256 := by simpa using h
  omega

theorem byte_lo (x : Nat) : x % 256 = x &&& 0xFF := by
  have h := Nat.and_pow_two_sub_one_eq_mod x 8
  simpa using h.symm

theorem and_255_idem (x : Nat) : x &&& 0xFF &&& 0xFF = x &&& 0xFF := by
  rw [← byte_lo (x &&& 0xFF)]
  exact Nat.mod_eq_of_lt (and_255_lt x)

theorem byte_hi8 (x : Nat) : (x &&& 0xff00) >>> 8 &&& 0xFF = (x >>> 8) &&& 0xFF := by
  rw [shiftRight_and]
  have : (0xff00 : Nat) >>> 8 = 0xFF := by decide
  rw [this]
  exact and_255_idem _

theorem byte_hi16 (x : Nat) : (x &&& 0xff0000) >>> 16 &&& 0xFF = (x >>> 16) &&& 0xFF := by
  rw [shiftRight_and]
  have : (0xff0000 : Nat) >>> 16 = 0xFF := by decide
  rw [this]
  exact and_255_idem _

/-- The four bytes of a row-addressed frame, as `poke_row` leaves them at the
start of the array. -/
theorem row_frame (st : State δ) (opcode row : Nat) (hop : opcode < 256) :
    (List.range 4).map (peek (poke_row row (poke 0 opcode st)))
      = (row_command opcode row).tx := by
  have hop' : opcode &&& 0xFF = opcode := by
    rw [← byte_lo]; exact Nat.mod_eq_of_lt hop
  have h8 := byte_hi8 row
  have h16 := byte_hi16 row
  simp only [Nat.reduceAnd] at h8 h16 hop'
  simp [range_four, poke_row, row_command, byte_lo, h8, h16, hop']

/-- A row-addressed command as put on the bus by `poke_row` and a 4-byte
transfer. -/
theorem row_command_trace (D : Device δ) (st : State δ) (opcode row : Nat)
    (hop : opcode < 256) :
    (nand_spi_transfer D (poke_row row (poke 0 opcode st)) 4 0).2.trace
      = st.trace ++ [row_command opcode row] := by
  rw [transfer_trace _ _ _ _ (by decide), row_frame st opcode row hop]
  rfl

/-- The four bytes of the cache-read frame, as lines 157-160 leave them at
the start of the array. -/
theorem cache_read_frame (st : State δ) (column length : Nat) :
    (List.range 4).map
        (peek (poke 3 0x00 (poke 2 column (poke 1 ((column &&& 0xff00) >>> 8)
          (poke 0 NSF_CMD_READ_FROM_CACHE st)))))
      = (cache_read column length).tx := by
  have h8 := byte_hi8 column
  have h3 : (3 : Nat) &&& 255 = 3 := by decide
  simp only [Nat.reduceAnd] at h8
  simp [range_four, cache_read, byte_lo, h8, h3, NSF_CMD_READ_FROM_CACHE]

/-- Lines 156-170 put the cache-read frame on the bus, whatever the length:
the four bytes of the frame lie inside the array. -/
theorem page_read_transfer_trace (D : Device δ) (st : State δ) (column length : Nat) :
    (page_read_transfer D st column length).st.trace
      = st.trace ++ [cache_read column length] := by
  rw [page_read_transfer_st, transfer_trace _ _ _ _ (by decide), cache_read_frame st column length]
  rfl

theorem page_read_transfer_dev (D : Device δ) (st : State δ) (column length : Nat) :
    (page_read_transfer D st column length).st.dev
      = (D.spi_transfer st.dev (cache_read column length).tx (4 + length)).1 := by
  rw [page_read_transfer_st, transfer_dev _ _ _ _ (by decide), cache_read_frame st column length]
  rfl

/-- For a read that fits the array, the bytes handed to the caller are the
bytes the chip answered at clock positions 4, 5, ... of the cache-read
transfer. -/
theorem page_read_transfer_out (D : Device δ) (st : State δ) (column length : Nat)
    (h : 4 + length ≤ 255) :
    (page_read_transfer D st column length).out
      = (List.range length).map
          (fun i => (D.spi_transfer st.dev (cache_read column length).tx (4 + length)).2 (4 + i)
            % 256) := by
  rw [page_read_transfer_fit D st column length h]
  apply List.map_congr_left
  intro i hi
  have hi' : 4 + i < 4 + length := by have := List.mem_range.mp hi; omega
  rw [peek_transfer _ _ _ _ h, if_pos hi', cache_read_frame st column length]
  rfl

/-- For a read that fits the array, the bytes handed to the caller are the
bytes at offsets 4 .. 4+length-1 of the array after the transfer. -/
theorem page_read_transfer_buffer (D : Device δ) (st : State δ) (column length : Nat)
    (h : 4 + length ≤ 255) :
    memcpy_out 4 length (page_read_transfer D st column length).st
      = some (page_read_transfer D st column length).out := by
  rw [memcpy_out_fit _ _ _ h, page_read_transfer_fit D st column length h]

theorem page_read_load_trace (D : Device δ) (fuel : Nat) (st : State δ) (row : Nat) :
    ∃ k, k ≤ fuel ∧ (page_read_load D fuel st row).2.2.trace
      = st.trace ++ row_command NSF_CMD_READ_CELL_TO_CACHE row :: List.replicate k status_poll := by
  obtain ⟨k, hk, e⟩ := read_status_trace D fuel
    (nand_spi_transfer D (poke_row row (poke 0 NSF_CMD_READ_CELL_TO_CACHE st)) 4 0).2
  refine ⟨k, hk, ?_⟩
  rw [page_read_load_eq, e, row_command_trace D st _ row (by decide)]
  simp [status_poll]

/-- An accepted read that misses the tracker starts with the
read-cell-to-cache exchange for its row, whatever its length. -/
theorem page_read_miss_prefix (D : Device δ) (fuel : Nat) (st : State δ)
    (row column length : Nat)
    (hcol : column + length < 2112) (hrow : row < 262144)
    (hmiss : st.read_row_addr_in_cache ≠ row) :
    ∃ rest, (nand_spi_flash_page_read D fuel st row column length).st.trace
      = st.trace ++ row_command NSF_CMD_READ_CELL_TO_CACHE row :: rest := by
  obtain ⟨k, _, e⟩ := page_read_load_trace D fuel st row
  rw [page_read_miss D fuel st row column length hcol hrow hmiss]
  split
  · exact ⟨_, e⟩
  · split
    · exact ⟨_, e⟩
    · refine ⟨List.replicate k status_poll ++ [cache_read column length], ?_⟩
      rw [page_read_transfer_trace]
      show (page_read_load D fuel st row).2.2.trace ++ _ = _
      rw [e, List.append_assoc]
      rfl

end Frames

/-! ## Page read and the cache tracker (C4, C7, C8, C9) -/

section Tracker

variable {δ : Type}

theorem col_hi (c : Nat) (h : c < 65536) : (c >>> 8) &&& 0xFF = c >>> 8 := by
  rw [← byte_lo, Nat.shiftRight_eq_div_pow]
  apply Nat.mod_eq_of_lt
  have : (2 : Nat) ^ 8 = 256 := by decide
  omega

theorem cache_read_eq (column length : Nat) (h : column < 65536) :
    cache_read column length = ⟨[0x03, column >>> 8, column &&& 0xFF, 0x00], length⟩ := by
  simp [cache_read, col_hi column h]

/-- An accepted read that gets past the cache load runs lines 156-170 from
`before_cache_read`. -/
theorem page_read_returns (D : Device δ) (fuel : Nat) (st : State δ) (row column length : Nat)
    (hcol : column + length < 2112) (hrow : row < 262144)
    (h : st.read_row_addr_in_cache = row
      ∨ ∃ s, (page_read_load D fuel st row).2.1 = some s ∧ s &&& 0x30 ≠ 0x30) :
    nand_spi_flash_page_read D fuel st row column length
      = page_read_transfer D (before_cache_read D fuel st row) column length := by
  by_cases hhit : st.read_row_addr_in_cache = row
  · rw [page_read_hit D fuel st row column length hcol hrow hhit]
    simp [before_cache_read, hhit]
  · rcases h with h | ⟨s, hs, he⟩
    · exact absurd h hhit
    · rw [page_read_miss D fuel st row column length hcol hrow hhit, hs]
      simp [before_cache_read, hhit, he]

/-- An accepted read that returns something other than -5 got past the cache
load. -/
theorem page_read_reached (D : Device δ) (fuel : Nat) (st : State δ) (row column length : Nat)
    (hcol : column + length < 2112) (hrow : row < 262144) (v : Int)
    (hv : (nand_spi_flash_page_read D fuel st row column length).ret = some v)
    (hne : v ≠ NSF_ERR_BAD_BLOCK) :
    st.read_row_addr_in_cache = row
      ∨ ∃ s, (page_read_load D fuel st row).2.1 = some s ∧ s &&& 0x30 ≠ 0x30 := by
  by_cases hhit : st.read_row_addr_in_cache = row
  · exact Or.inl hhit
  · right
    rw [page_read_miss D fuel st row column length hcol hrow hhit] at hv
    cases hl : (page_read_load D fuel st row).2.1 with
    | none => simp [hl] at hv
    | some s =>
      refine ⟨s, rfl, ?_⟩
      intro he
      simp only [hl, NSF_ECC_MASK, he, if_true, Option.some.injEq] at hv
      exact hne hv.symm

/-- An accepted read that returns something other than -5 fitted the array. -/
theorem page_read_fits (D : Device δ) (fuel : Nat) (st : State δ) (row column length : Nat)
    (hcol : column + length < 2112) (hrow : row < 262144) (v : Int)
    (hv : (nand_spi_flash_page_read D fuel st row column length).ret = some v)
    (hne : v ≠ NSF_ERR_BAD_BLOCK) :
    4 + length ≤ 255 := by
  have h := page_read_reached D fuel st row column length hcol hrow v hv hne
  rw [page_read_returns D fuel st row column length hcol hrow h] at hv
  by_contra hover
  rw [page_read_transfer_ret_none _ _ _ _ (by omega)] at hv
  exact absurd hv (by simp)

/-- An accepted read that gets past the cache load with a length that does
not fit the array has no return value: the cache-read exchange runs past the
array. -/
theorem page_read_over (D : Device δ) (fuel : Nat) (st : State δ) (row column length : Nat)
    (hcol : column + length < 2112) (hrow : row < 262144) (hover : 255 < 4 + length)
    (h : st.read_row_addr_in_cache = row
      ∨ ∃ s, (page_read_load D fuel st row).2.1 = some s ∧ s &&& 0x30 ≠ 0x30) :
    (nand_spi_flash_page_read D fuel st row column length).ret = none
    ∧ (nand_spi_flash_page_read D fuel st row column length).out = []
    ∧ 255 < (nand_spi_flash_page_read D fuel st row column length).st.extent := by
  rw [page_read_returns D fuel st row column length hcol hrow h,
    page_read_transfer_over _ _ _ _ hover]
  refine ⟨rfl, rfl, ?_⟩
  simp only [transfer_extent]
  omega

theorem page_write_issue_cache (D : Device δ) (st : State δ) (row column : Nat)
    (data : List Nat) (length : Nat) (hfit : 3 + length ≤ 255) :
    (page_write_issue D st row column data length).2.read_row_addr_in_cache
      = NAND_FLASH_ROW_COUNT := by
  rw [page_write_issue_fit D st row column data length hfit]
  simp

theorem page_write_cache (D : Device δ) (fuel : Nat) (st : State δ) (row column : Nat)
    (data : List Nat) (length : Nat)
    (hcol : column + length < 2112) (hrow : row < 262144) (hfit : 3 + length ≤ 255) :
    (nand_spi_flash_page_write D fuel st row column data length).st.read_row_addr_in_cache
      = NAND_FLASH_ROW_COUNT := by
  have h := read_status_cache D fuel (page_write_issue D st row column data length).2
  rw [page_write_issue_cache D st row column data length hfit] at h
  rw [page_write_accepted D fuel st row column data length hcol hrow hfit]
  split
  · exact h
  · split <;> exact h

end Tracker

/-- C4 holds for every length that fits the transfer buffer, and not beyond.
For a `nand_spi_flash_page_read` that passes the bounds check: with
`4 + length <= 255` it returns `length` on a cache hit and on a miss whose
status poll returns without the ECC field all-ones; whenever it returns a
value other than `NSF_ERR_BAD_BLOCK`, that value is `length`, the frame
fitted the buffer, the last exchange issued is the cache-read transfer
`[0x03, column >> 8, column & 0xFF, 0x00]` with read length `length`, and
the caller receives, in order, the `length` bytes the chip answered at
offsets 4 .. 4+length-1, which are the bytes then found at those offsets of
the buffer.  With `4 + length > 255` (252 bytes and more) a read that gets
past the cache load runs past the 255-byte `m_nsf_buffer`: it has no return
value. -/
theorem page_read_cache_transfer {δ : Type} (D : Device δ) (fuel : Nat) (st : State δ)
    (row column length : Nat)
    (hcol : column + length < 2112) (hrow : row < 262144) :
    (4 + length ≤ NSF_BUFFER_SIZE →
      (st.read_row_addr_in_cache = row
        ∨ ∃ s, (page_read_load D fuel st row).2.1 = some s ∧ s &&& 0x30 ≠ 0x30) →
      (nand_spi_flash_page_read D fuel st row column length).ret = some (length : Int))
    ∧ (∀ v : Int, (nand_spi_flash_page_read D fuel st row column length).ret = some v →
        v ≠ NSF_ERR_BAD_BLOCK →
        v = length
        ∧ 4 + length ≤ NSF_BUFFER_SIZE
        ∧ (nand_spi_flash_page_read D fuel st row column length).st.trace
            = (before_cache_read D fuel st row).trace
                ++ [⟨[0x03, column >>> 8, column &&& 0xFF, 0x00], length⟩]
        ∧ (nand_spi_flash_page_read D fuel st row column length).out
            = (List.range length).map
                (fun i => (D.spi_transfer (before_cache_read D fuel st row).dev
                    [0x03, column >>> 8, column &&& 0xFF, 0x00] (4 + length)).2 (4 + i) % 256)
        ∧ memcpy_out 4 length (nand_spi_flash_page_read D fuel st row column length).st
            = some (nand_spi_flash_page_read D fuel st row column length).out)
    ∧ (NSF_BUFFER_SIZE < 4 + length →
      (st.read_row_addr_in_cache = row
        ∨ ∃ s, (page_read_load D fuel st row).2.1 = some s ∧ s &&& 0x30 ≠ 0x30) →
      (nand_spi_flash_page_read D fuel st row column length).ret = none
      ∧ NSF_BUFFER_SIZE < (nand_spi_flash_page_read D fuel st row column length).st.extent) := by
  have hc : column < 65536 := by omega
  refine ⟨?_, ?_, ?_⟩
  · intro hfit h
    rw [page_read_returns D fuel st row column length hcol hrow h,
      page_read_transfer_ret _ _ _ _ hfit]
  · intro v hv hne
    have h := page_read_reached D fuel st row column length hcol hrow v hv hne
    have hfit := page_read_fits D fuel st row column length hcol hrow v hv hne
    have e := page_read_returns D fuel st row column length hcol hrow h
    rw [e, page_read_transfer_ret _ _ _ _ hfit] at hv
    refine ⟨?_, hfit, ?_, ?_, ?_⟩
    · simpa using hv.symm
    · rw [e, page_read_transfer_trace, cache_read_eq column length hc]
    · rw [e, page_read_transfer_out _ _ _ _ hfit, cache_read_eq column length hc]
    · rw [e]; exact page_read_transfer_buffer D _ column length hfit
  · intro hover h
    have ho := page_read_over D fuel st row column length hcol hrow hover h
    exact ⟨ho.1, ho.2.2⟩

/-- Example for C4: on an erased chip a 16-byte read of row 5 at column 260
returns 16 and hands over sixteen 0xFF bytes; its last exchange is
`[0x03, 0x01, 0x04, 0x00]` with read length 16.  A 252-byte read of row 0
reaches 256 bytes into the 255-byte buffer and returns nothing. -/
theorem page_read_cache_transfer_witness :
    (nand_spi_flash_page_read chip 5 (boot fresh_chip) 5 260 16).ret = some 16
    ∧ (nand_spi_flash_page_read chip 5 (boot fresh_chip) 5 260 16).out = List.replicate 16 0xFF
    ∧ (nand_spi_flash_page_read chip 5 (boot fresh_chip) 5 260 16).st.trace.getLast?
        = some ⟨[0x03, 0x01, 0x04, 0x00], 16⟩
    ∧ (nand_spi_flash_page_read chip 5 (boot fresh_chip) 0 0 252).ret = none
    ∧ (nand_spi_flash_page_read chip 5 (boot fresh_chip) 0 0 252).st.extent = 256 :=
  ⟨(page_read_cache_transfer chip 5 (boot fresh_chip) 5 260 16 (by decide) (by decide)).1
      (by decide) (Or.inr ⟨0, by decide, by decide⟩),
   by decide, by decide,
   ((page_read_cache_transfer chip 5 (boot fresh_chip) 0 0 252 (by decide) (by decide)).2.2
      (by decide) (Or.inr ⟨0, by decide, by decide⟩)).1,
   by decide⟩

section OnChip

theorem getD_map_range (f : Nat → Nat) (n i : Nat) :
    ((List.range n).map f).getD i 0 = if i < n then f i else 0 := by
  by_cases h : i < n
  · simp [List.getD, h]
  · have hn : (List.range n)[i]? = none :=
      List.getElem?_eq_none (by simpa using Nat.le_of_not_lt h)
    simp [List.getD, h, hn]

theorem hi8_div (x : Nat) : (x &&& 0xff00) >>> 8 = x / 256 % 256 := by
  rw [shiftRight_and]
  have h1 : (0xff00 : Nat) >>> 8 = 0xFF := by decide
  have h2 : (2 : Nat) ^ 8 = 256 := by decide
  rw [h1, ← byte_lo, Nat.shiftRight_eq_div_pow, h2]

theorem hi16_div (x : Nat) : (x &&& 0xff0000) >>> 16 = x / 65536 % 256 := by
  rw [shiftRight_and]
  have h1 : (0xff0000 : Nat) >>> 16 = 0xFF := by decide
  have h2 : (2 : Nat) ^ 16 = 65536 := by decide
  rw [h1, ← byte_lo, Nat.shiftRight_eq_div_pow, h2]

/-- One round of the status poll against the chip model. -/
theorem chip_poll_step (st : State Chip) :
    (nand_spi_transfer chip
        (poke 1 NSF_CMD_FEATURE_STATUS (poke 0 NSF_CMD_GET_FEATURE st)) 2 1).2.dev
      = { st.dev with busy := st.dev.busy - 1 }
    ∧ (nand_spi_transfer chip
        (poke 1 NSF_CMD_FEATURE_STATUS (poke 0 NSF_CMD_GET_FEATURE st)) 2 1).2.m_nsf_buffer 2
      = if st.dev.busy = 0 then 0 else 1 := by
  constructor
  · rw [transfer_dev _ _ _ _ (by decide), poll_frame]
    simp [chip, chip_transfer, NSF_CMD_GET_FEATURE, NSF_CMD_FEATURE_STATUS]
  · rw [transfer_buffer _ _ _ _ (by decide), poll_frame]
    have h2 : ((2 : Fin NSF_BUFFER_SIZE) : Nat) = 2 := rfl
    rw [h2]
    by_cases hb : st.dev.busy = 0
    · simp [chip, chip_transfer, NSF_CMD_GET_FEATURE, NSF_CMD_FEATURE_STATUS, hb]
    · simp [chip, chip_transfer, NSF_CMD_GET_FEATURE, NSF_CMD_FEATURE_STATUS, NSF_OIP_MASK, hb]

/-- Against the chip model the poll loop ends after `busy + 1` rounds with
status 0 in byte 2, and only the busy countdown of the chip has changed. -/
theorem chip_poll_loop (b : Nat) : ∀ (fuel : Nat) (st : State Chip),
    st.dev.busy = b → b < fuel → st.m_nsf_buffer 2 &&& NSF_OIP_MASK ≠ 0 →
    (poll_loop chip fuel st).1 = true
    ∧ (poll_loop chip fuel st).2.m_nsf_buffer 2 = 0
    ∧ (poll_loop chip fuel st).2.dev = { st.dev with busy := 0 } := by
  induction b with
  | zero =>
    intro fuel st hb hf hbit
    obtain ⟨f, rfl⟩ : ∃ f, fuel = f + 1 := ⟨fuel - 1, by omega⟩
    obtain ⟨hd, h2⟩ := chip_poll_step st
    unfold poll_loop
    simp only [hbit, ne_eq, not_false_eq_true, if_true]
    rw [poll_loop_idle]
    · refine ⟨rfl, ?_, ?_⟩
      · simp only [h2, hb, if_true]
      · simp only [hd, hb]
    · simp only [h2, hb, if_true]; rfl
  | succ n ih =>
    intro fuel st hb hf hbit
    obtain ⟨f, rfl⟩ : ∃ f, fuel = f + 1 := ⟨fuel - 1, by omega⟩
    obtain ⟨hd, h2⟩ := chip_poll_step st
    unfold poll_loop
    simp only [hbit, ne_eq, not_false_eq_true, if_true]
    have := ih f
      (nand_spi_transfer chip (poke 1 NSF_CMD_FEATURE_STATUS (poke 0 NSF_CMD_GET_FEATURE st)) 2 1).2
      (by rw [hd]; simp [hb])
      (by omega)
      (by rw [h2]; simp [hb, NSF_OIP_MASK])
    refine ⟨this.1, this.2.1, ?_⟩
    rw [this.2.2, hd]

/-- Against the chip model `nand_spi_flash_read_status` returns 0 once the
fuel exceeds the busy countdown. -/
theorem chip_read_status (fuel : Nat) (st : State Chip) (hf : st.dev.busy < fuel) :
    (nand_spi_flash_read_status chip fuel st).1 = some 0
    ∧ (nand_spi_flash_read_status chip fuel st).2.dev = { st.dev with busy := 0 }
    ∧ (nand_spi_flash_read_status chip fuel st).2.read_row_addr_in_cache
        = st.read_row_addr_in_cache := by
  have h := chip_poll_loop st.dev.busy fuel (poke 2 NSF_OIP_MASK st) rfl hf
    (by simp [poke_buffer, NSF_OIP_MASK])
  refine ⟨?_, ?_, read_status_cache chip fuel st⟩
  · unfold nand_spi_flash_read_status
    simp [h.1, h.2.1]
  · rw [read_status_state, h.2.2]; rfl

theorem chip_transfer_load (c : Chip) (tx : List Nat) (n : Nat)
    (h : tx.getD 0 0 = 0x13) :
    (chip_transfer c tx n).1 = { c with page_buffer := c.cells (frame_row tx), busy := c.t_busy } := by
  unfold chip_transfer
  simp only [h]
  simp [NSF_CMD_GET_FEATURE, NSF_CMD_WRITE_ENABLE, NSF_CMD_RESET, NSF_CMD_READ_CELL_TO_CACHE]

theorem chip_transfer_cache_read (c : Chip) (tx : List Nat) (n i : Nat)
    (h : tx.getD 0 0 = 0x03) (hi : tx.length ≤ i) :
    (chip_transfer c tx n).2 i = c.page_buffer (frame_col tx + (i - tx.length)) := by
  have hi' : ¬ i < tx.length := by omega
  unfold chip_transfer
  simp only [h]
  simp [hi', NSF_CMD_GET_FEATURE, NSF_CMD_WRITE_ENABLE, NSF_CMD_RESET,
    NSF_CMD_READ_CELL_TO_CACHE, NSF_CMD_READ_FROM_CACHE]

theorem chip_transfer_program_load (c : Chip) (tx : List Nat) (n : Nat)
    (h : tx.getD 0 0 = 0x02) :
    (chip_transfer c tx n).1
      = { c with
          page_buffer := fun k =>
            if frame_col tx ≤ k ∧ k < frame_col tx + (tx.length - 3) then
              tx.getD (k - frame_col tx + 3) 0
            else c.page_buffer k } := by
  unfold chip_transfer
  simp only [h]
  simp [NSF_CMD_GET_FEATURE, NSF_CMD_WRITE_ENABLE, NSF_CMD_RESET,
    NSF_CMD_READ_CELL_TO_CACHE, NSF_CMD_READ_FROM_CACHE, NSF_CMD_PROGRAM_LOAD]

theorem chip_transfer_program_execute (c : Chip) (tx : List Nat) (n : Nat)
    (h : tx.getD 0 0 = 0x10) (hw : c.write_enable_latch = true) :
    (chip_transfer c tx n).1
      = { c with
          cells := fun r => if r = frame_row tx then c.page_buffer else c.cells r
          write_enable_latch := false
          busy := c.t_busy } := by
  unfold chip_transfer
  simp only [h]
  simp [hw, NSF_CMD_GET_FEATURE, NSF_CMD_WRITE_ENABLE, NSF_CMD_RESET,
    NSF_CMD_READ_CELL_TO_CACHE, NSF_CMD_READ_FROM_CACHE, NSF_CMD_PROGRAM_LOAD,
    NSF_CMD_PROGRAM_EXECUTE]

/-- The bytes of a row-addressed frame, as lines 136-139 (and their twins)
leave them in the buffer. -/
theorem row_frame_bytes {δ : Type} (st : State δ) (opcode row : Nat) :
    (List.range 4).map (peek (poke_row row (poke 0 opcode st)))
      = [opcode % 256, row / 65536 % 256, row / 256 % 256, row % 256] := by
  simp [range_four, poke_row, hi8_div, hi16_div]

theorem frame_row_bytes (opcode row : Nat) (h : row < 16777216) :
    frame_row [opcode, row / 65536 % 256, row / 256 % 256, row % 256] = row := by
  simp [frame_row]
  omega

theorem list_of_getD (l : List Nat) : (List.range l.length).map (fun i => l.getD i 0) = l := by
  apply List.ext_getElem
  · simp
  · intro i h1 h2
    simp [List.getD, h2]

theorem getD_lt_256 (data : List Nat) (hbytes : ∀ b ∈ data, b < 256) (j : Nat) :
    data.getD j 0 < 256 := by
  by_cases hj : j < data.length
  · have : data.getD j 0 = data[j] := by simp [List.getD, hj]
    rw [this]
    exact hbytes _ (List.getElem_mem hj)
  · have hn : data[j]? = none := List.getElem?_eq_none (by omega)
    simp [List.getD, hn]

/-- The chip after the program-load exchange of `page_write_issue`, for a
payload that fits the array: the page buffer holds the payload from `column`
on. -/
theorem chip_program_load (st : State Chip) (column : Nat) (data : List Nat)
    (hc : column < 65536) (hbytes : ∀ b ∈ data, b < 256) (hfit : 3 + data.length ≤ 255) :
    (nand_spi_transfer chip
        (memcpy_in 3 data data.length
          (poke 2 column (poke 1 ((column &&& 0xff00) >>> 8)
            (poke 0 NSF_CMD_PROGRAM_LOAD st)))).2
        (data.length + 3) 0).2.dev
      = { st.dev with
          page_buffer := fun k =>
            if column ≤ k ∧ k < column + data.length then data.getD (k - column) 0
            else st.dev.page_buffer k } := by
  rw [transfer_dev _ _ _ _ (by omega)]
  simp only [chip, memcpy_in_dev, poke_dev]
  have h0 : ((List.range (data.length + 3)).map
      (peek (memcpy_in 3 data data.length
        (poke 2 column (poke 1 ((column &&& 0xff00) >>> 8)
          (poke 0 NSF_CMD_PROGRAM_LOAD st)))).2)).getD 0 0 = 0x02 := by
    rw [getD_map_range, peek_memcpy_in _ _ _ _ hfit]
    simp [NSF_CMD_PROGRAM_LOAD]
  have hcol : frame_col ((List.range (data.length + 3)).map
      (peek (memcpy_in 3 data data.length
        (poke 2 column (poke 1 ((column &&& 0xff00) >>> 8)
          (poke 0 NSF_CMD_PROGRAM_LOAD st)))).2)) = column := by
    unfold frame_col
    rw [getD_map_range, getD_map_range, peek_memcpy_in _ _ _ _ hfit,
      peek_memcpy_in _ _ _ _ hfit]
    simp [hi8_div]
    omega
  rw [chip_transfer_program_load _ _ _ h0, hcol]
  congr 1
  funext k
  by_cases hk : column ≤ k ∧ k < column + data.length
  · have hk' : column ≤ k ∧ k < column + (data.length + 3 - 3) := by omega
    have h3 : k - column + 3 < data.length + 3 := by omega
    have h4 : 3 ≤ k - column + 3 ∧ k - column + 3 < 3 + data.length := by omega
    simp only [List.length_map, List.length_range, hk, hk', and_self, if_true]
    rw [getD_map_range, if_pos h3, peek_memcpy_in _ _ _ _ hfit, if_pos h4]
    have hb := getD_lt_256 data hbytes (k - column)
    have e : k - column + 3 - 3 = k - column := by omega
    rw [e]
    exact Nat.mod_eq_of_lt hb
  · have hk' : ¬ (column ≤ k ∧ k < column + (data.length + 3 - 3)) := by omega
    simp only [List.length_map, List.length_range, hk, hk', if_false]

/-- The chip after both exchanges of `page_write_issue`, for a payload that
fits the array and with the write-enable latch set: the page buffer with the
payload has been committed to the cells of `row`. -/
theorem chip_page_write_issue (st : State Chip) (row column : Nat) (data : List Nat)
    (hrow : row < 262144) (hc : column < 65536) (hbytes : ∀ b ∈ data, b < 256)
    (hfit : 3 + data.length ≤ 255)
    (hwel : st.dev.write_enable_latch = true) :
    (page_write_issue chip st row column data data.length).2.dev
      = { st.dev with
          cells := fun r =>
            if r = row then
              fun k =>
                if column ≤ k ∧ k < column + data.length then data.getD (k - column) 0
                else st.dev.page_buffer k
            else st.dev.cells r
          page_buffer := fun k =>
            if column ≤ k ∧ k < column + data.length then data.getD (k - column) 0
            else st.dev.page_buffer k
          write_enable_latch := false
          busy := st.dev.t_busy } := by
  have hA := chip_program_load st column data hc hbytes hfit
  rw [page_write_issue_fit chip st row column data data.length hfit]
  rw [transfer_dev _ _ _ _ (by decide), row_frame_bytes]
  simp only [poke_row_dev, poke_dev]
  rw [hA]
  show (chip_transfer _ _ _).1 = _
  rw [chip_transfer_program_execute _ _ _ ?h0 ?hw, frame_row_bytes _ row (by omega)]
  case h0 => simp [NSF_CMD_PROGRAM_EXECUTE]
  case hw => exact hwel

/-- The cache load against the chip model: the poll returns status 0 and the
page buffer holds the cells of `row`. -/
theorem chip_page_read_load (st : State Chip) (fuel row : Nat)
    (hrow : row < 262144) (hf : st.dev.t_busy < fuel) :
    (page_read_load chip fuel st row).2.1 = some 0
    ∧ (page_read_load chip fuel st row).2.2.dev
        = { st.dev with page_buffer := st.dev.cells row, busy := 0 } := by
  have hd : (nand_spi_transfer chip
      (poke_row row (poke 0 NSF_CMD_READ_CELL_TO_CACHE st)) 4 0).2.dev
      = { st.dev with page_buffer := st.dev.cells row, busy := st.dev.t_busy } := by
    rw [transfer_dev _ _ _ _ (by decide), row_frame_bytes]
    simp only [poke_row_dev, poke_dev]
    show (chip_transfer _ _ _).1 = _
    rw [chip_transfer_load _ _ _ ?h0, frame_row_bytes _ row (by omega)]
    case h0 => simp [NSF_CMD_READ_CELL_TO_CACHE]
  have hp := chip_read_status fuel
    (nand_spi_transfer chip (poke_row row (poke 0 NSF_CMD_READ_CELL_TO_CACHE st)) 4 0).2
    (by rw [hd]; exact hf)
  rw [page_read_load_eq]
  refine ⟨hp.1, ?_⟩
  rw [hp.2.1, hd]

/-- The cache-read transfer against the chip model, for a read that fits the
array, hands over the page buffer from `column` on. -/
theorem chip_page_read_transfer (st : State Chip) (column length : Nat) (hc : column < 65536)
    (hfit : 4 + length ≤ 255) :
    (page_read_transfer chip st column length).out
      = (List.range length).map (fun i => st.dev.page_buffer (column + i) % 256) := by
  rw [page_read_transfer_out _ _ _ _ hfit]
  apply List.map_congr_left
  intro i _
  have hcol : frame_col (cache_read column length).tx = column := by
    have h1 := col_hi column hc
    have h2 := byte_lo column
    have h3 : (2 : Nat) ^ 8 = 256 := by decide
    simp only [cache_read, frame_col, List.getD_cons_succ, List.getD_cons_zero]
    rw [h1, ← h2, Nat.shiftRight_eq_div_pow, h3]
    omega
  show (chip_transfer st.dev (cache_read column length).tx (4 + length)).2 (4 + i) % 256 = _
  rw [chip_transfer_cache_read _ _ _ _ (by simp [cache_read]) (by simp [cache_read]), hcol]
  simp [cache_read]

end OnChip

/-! ## How far into the buffer each call reaches -/

section Extent

variable {δ : Type}

theorem poll_loop_extent (D : Device δ) (fuel : Nat) (st : State δ) :
    (poll_loop D fuel st).2.extent ≤ max st.extent 3 := by
  induction fuel generalizing st with
  | zero => simp [poll_loop]
  | succ n ih =>
    unfold poll_loop
    by_cases hb : st.m_nsf_buffer 2 &&& NSF_OIP_MASK = 0
    · simp [hb]
    · simp only [ne_eq, hb, not_false_eq_true, if_true]
      have := ih (nand_spi_transfer D
        (poke 1 NSF_CMD_FEATURE_STATUS (poke 0 NSF_CMD_GET_FEATURE st)) 2 1).2
      have e0 : ((0 : Fin NSF_BUFFER_SIZE) : Nat) = 0 := rfl
      have e1 : ((1 : Fin NSF_BUFFER_SIZE) : Nat) = 1 := rfl
      simp only [transfer_extent, poke_extent, e0, e1] at this
      omega

theorem read_status_extent (D : Device δ) (fuel : Nat) (st : State δ) :
    (nand_spi_flash_read_status D fuel st).2.extent ≤ max st.extent 3 := by
  rw [read_status_state]
  have := poll_loop_extent D fuel (poke 2 NSF_OIP_MASK st)
  have e2 : ((2 : Fin NSF_BUFFER_SIZE) : Nat) = 2 := rfl
  simp only [poke_extent, e2] at this
  omega

theorem page_read_transfer_extent (D : Device δ) (st : State δ) (column length : Nat) :
    (page_read_transfer D st column length).st.extent = max st.extent (4 + length) := by
  have e0 : ((0 : Fin NSF_BUFFER_SIZE) : Nat) = 0 := rfl
  have e1 : ((1 : Fin NSF_BUFFER_SIZE) : Nat) = 1 := rfl
  have e2 : ((2 : Fin NSF_BUFFER_SIZE) : Nat) = 2 := rfl
  have e3 : ((3 : Fin NSF_BUFFER_SIZE) : Nat) = 3 := rfl
  rw [page_read_transfer_st]
  simp only [transfer_extent, poke_extent, e0, e1, e2, e3]
  omega

/-- `nand_spi_flash_page_read` reaches at most `4 + length` bytes into the
buffer. -/
theorem page_read_extent_le (D : Device δ) (fuel : Nat) (st : State δ)
    (row column length : Nat) :
    (nand_spi_flash_page_read D fuel st row column length).st.extent
      ≤ max st.extent (4 + length) := by
  have e0 : ((0 : Fin NSF_BUFFER_SIZE) : Nat) = 0 := rfl
  by_cases hb : column + length < 2112 ∧ row < 262144
  · by_cases hhit : st.read_row_addr_in_cache = row
    · rw [page_read_hit D fuel st row column length hb.1 hb.2 hhit, page_read_transfer_extent]
    · have hl : (page_read_load D fuel st row).2.2.extent ≤ max st.extent 4 := by
        rw [page_read_load_eq]
        have := read_status_extent D fuel
          (nand_spi_transfer D (poke_row row (poke 0 NSF_CMD_READ_CELL_TO_CACHE st)) 4 0).2
        simp only [transfer_extent, poke_row_extent, poke_extent, e0] at this
        omega
      rw [page_read_miss D fuel st row column length hb.1 hb.2 hhit]
      split
      · show (page_read_load D fuel st row).2.2.extent ≤ _
        omega
      · split
        · show (page_read_load D fuel st row).2.2.extent ≤ _
          omega
        · rw [page_read_transfer_extent]
          show max (page_read_load D fuel st row).2.2.extent _ ≤ _
          omega
  · rw [page_read_rejected D fuel st row column length (by omega)]
    exact Nat.le_max_left _ _

/-- `nand_spi_flash_page_write` reaches at most `4 + length` bytes into the
buffer (`3 + length` for program-load, 4 for program-execute). -/
theorem page_write_extent_le (D : Device δ) (fuel : Nat) (st : State δ)
    (row column : Nat) (data : List Nat) (length : Nat) :
    (nand_spi_flash_page_write D fuel st row column data length).st.extent
      ≤ max st.extent (4 + length) := by
  have e0 : ((0 : Fin NSF_BUFFER_SIZE) : Nat) = 0 := rfl
  have e1 : ((1 : Fin NSF_BUFFER_SIZE) : Nat) = 1 := rfl
  have e2 : ((2 : Fin NSF_BUFFER_SIZE) : Nat) = 2 := rfl
  by_cases hb : column + length < 2112 ∧ row < 262144
  · by_cases hfit : 3 + length ≤ 255
    · have hi : (page_write_issue D st row column data length).2.extent
          ≤ max st.extent (4 + length) := by
        rw [page_write_issue_fit D st row column data length hfit]
        simp only [transfer_extent, poke_row_extent, poke_extent, memcpy_in_extent, e0, e1, e2]
        omega
      have hp := read_status_extent D fuel (page_write_issue D st row column data length).2
      rw [page_write_accepted D fuel st row column data length hb.1 hb.2 hfit]
      split
      · show (nand_spi_flash_read_status D fuel _).2.extent ≤ _
        omega
      · split
        · show (nand_spi_flash_read_status D fuel _).2.extent ≤ _
          omega
        · show (nand_spi_flash_read_status D fuel _).2.extent ≤ _
          omega
    · rw [page_write_over D fuel st row column data length hb.1 hb.2 (by omega)]
      simp only [memcpy_in_extent, poke_extent, e0, e1, e2]
      omega
  · rw [page_write_rejected D fuel st row column data length (by omega)]
    exact Nat.le_max_left _ _

end Extent

/-! ## Write then read (C2) and the size of the transfer buffer (C3) -/

/-- C2, as stated, fails: after `nand_spi_flash_init` and one page write (which
uses up the write-enable latch), `page_write(row 5, column 0, sixteen 0xAA)`
returns 16, and the following `page_read(row 5, column 0, 16)` returns 16
but hands over the sixteen 0x11 bytes of the earlier write, because the chip
ignored the program-execute issued without a new write-enable. -/
theorem page_write_read_latch_clear :
    after_first_write.dev.write_enable_latch = false
    ∧ (nand_spi_flash_page_write chip 5 after_first_write 5 0 (List.replicate 16 0xAA) 16).ret
        = some 16
    ∧ (nand_spi_flash_page_read chip 5
        (nand_spi_flash_page_write chip 5 after_first_write 5 0 (List.replicate 16 0xAA) 16).st
        5 0 16).ret = some 16
    ∧ (nand_spi_flash_page_read chip 5
        (nand_spi_flash_page_write chip 5 after_first_write 5 0 (List.replicate 16 0xAA) 16).st
        5 0 16).out = List.replicate 16 0x11
    ∧ (nand_spi_flash_page_read chip 5
        (nand_spi_flash_page_write chip 5 after_first_write 5 0 (List.replicate 16 0xAA) 16).st
        5 0 16).out ≠ List.replicate 16 0xAA := by
  decide

/-- C2, amended: on the chip model with the write-enable latch set, for every
row < 262144, every column and data with `column + length < 2112` whose
frames fit the transfer buffer (`4 + length <= 255`), and enough poll rounds
for the chip's busy time, `page_write(row, column, data, length)` returns
`length`, the following `page_read(row, column, length)` returns `length`
and hands over exactly `data`, and neither call reaches past the end of
`m_nsf_buffer`. -/
theorem page_write_read_roundtrip (st : State Chip) (fuel row column : Nat) (data : List Nat)
    (hrow : row < 262144) (hcol : column + data.length < 2112)
    (hfit : 4 + data.length ≤ NSF_BUFFER_SIZE)
    (hbytes : ∀ b ∈ data, b < 256)
    (hwel : st.dev.write_enable_latch = true) (hfuel : st.dev.t_busy < fuel) :
    (nand_spi_flash_page_write chip fuel st row column data data.length).ret
        = some (data.length : Int)
    ∧ (nand_spi_flash_page_read chip fuel
        (nand_spi_flash_page_write chip fuel st row column data data.length).st
        row column data.length).ret = some (data.length : Int)
    ∧ (nand_spi_flash_page_read chip fuel
        (nand_spi_flash_page_write chip fuel st row column data data.length).st
        row column data.length).out = data
    ∧ (nand_spi_flash_page_read chip fuel
        (nand_spi_flash_page_write chip fuel st row column data data.length).st
        row column data.length).st.extent ≤ max st.extent NSF_BUFFER_SIZE := by
  have hc : column < 65536 := by omega
  -- the write
  have hfit3 : 3 + data.length ≤ 255 := by simp only [NSF_BUFFER_SIZE] at hfit; omega
  have hfit4 : 4 + data.length ≤ 255 := hfit
  have hI := chip_page_write_issue st row column data hrow hc hbytes hfit3 hwel
  have hP := chip_read_status fuel (page_write_issue chip st row column data data.length).2
    (by rw [hI]; exact hfuel)
  have hw : nand_spi_flash_page_write chip fuel st row column data data.length
      = ⟨some (data.length : Int),
          (nand_spi_flash_read_status chip fuel
            (page_write_issue chip st row column data data.length).2).2⟩ := by
    rw [page_write_accepted chip fuel st row column data data.length hcol hrow hfit3, hP.1]
    simp [NSF_ECC_MASK]
  have hwc := page_write_cache chip fuel st row column data data.length hcol hrow hfit3
  have hwd : (nand_spi_flash_page_write chip fuel st row column data data.length).st.dev
      = { (page_write_issue chip st row column data data.length).2.dev with busy := 0 } := by
    rw [hw]; exact hP.2.1
  -- the read
  have hL := chip_page_read_load
    (nand_spi_flash_page_write chip fuel st row column data data.length).st fuel row hrow
    (by rw [hwd, hI]; exact hfuel)
  have hr := page_read_returns chip fuel
    (nand_spi_flash_page_write chip fuel st row column data data.length).st
    row column data.length hcol hrow (Or.inr ⟨0, hL.1, by decide⟩)
  have hmiss : (nand_spi_flash_page_write chip fuel st row column data data.length).st.read_row_addr_in_cache
      ≠ row := by
    rw [hwc]
    simp only [NAND_FLASH_ROW_COUNT, NAND_FLASH_PAGE_COUNT_PER_BLOCK, NAND_FLASH_BLOCK_COUNT]
    omega
  have hpb : ∀ i, i < data.length →
      (before_cache_read chip fuel
        (nand_spi_flash_page_write chip fuel st row column data data.length).st
        row).dev.page_buffer (column + i) = data.getD i 0 := by
    intro i hi
    have hi' : column ≤ column + i ∧ column + i < column + data.length := by omega
    simp only [before_cache_read, hmiss, ne_eq, not_false_eq_true, if_true]
    show (page_read_load chip fuel _ row).2.2.dev.page_buffer (column + i) = _
    rw [hL.2, hwd, hI]
    simp [hi]
  refine ⟨by rw [hw], by rw [hr, page_read_transfer_ret _ _ _ _ hfit4], ?_, ?_⟩
  · rw [hr, chip_page_read_transfer _ column data.length hc hfit4]
    conv_rhs => rw [← list_of_getD data]
    apply List.map_congr_left
    intro i hi
    have hi' : i < data.length := List.mem_range.mp hi
    rw [hpb i hi']
    exact Nat.mod_eq_of_lt (getD_lt_256 data hbytes i)
  · have h1 := page_read_extent_le chip fuel
      (nand_spi_flash_page_write chip fuel st row column data data.length).st
      row column data.length
    have h2 := page_write_extent_le chip fuel st row column data data.length
    simp only [NSF_BUFFER_SIZE] at hfit ⊢
    omega

/-- Example for C2 (amended): right after `nand_spi_flash_init`, writing sixteen
0xAA bytes to row 5 at column 0 returns 16, and reading them back returns 16
and the same sixteen bytes. -/
theorem page_write_read_roundtrip_witness :
    (nand_spi_flash_page_write chip 5 after_init 5 0 (List.replicate 16 0xAA) 16).ret = some 16
    ∧ (nand_spi_flash_page_read chip 5
        (nand_spi_flash_page_write chip 5 after_init 5 0 (List.replicate 16 0xAA) 16).st
        5 0 16).ret = some 16
    ∧ (nand_spi_flash_page_read chip 5
        (nand_spi_flash_page_write chip 5 after_init 5 0 (List.replicate 16 0xAA) 16).st
        5 0 16).out = List.replicate 16 0xAA :=
  have h := page_write_read_roundtrip after_init 5 5 0 (List.replicate 16 0xAA)
    (by decide) (by decide) (by decide) (by decide) (by decide) (by decide)
  ⟨h.1, h.2.1, h.2.2.1⟩

/-- C3 fails on the code: `m_nsf_buffer` has 255 bytes, yet the bounds check
accepts a 252-byte read, which reaches 256 bytes into the buffer (index 255
is touched), a 253-byte write, which does the same, and the longest accepted
read of 2111 bytes, which reaches 2115 bytes.  These calls run past the
array and have no return value.  The longest requests that stay inside it
are a 251-byte read and a 252-byte write, which reach 255 bytes and return
their length. -/
theorem transfer_buffer_overrun :
    NSF_BUFFER_SIZE = 255
    ∧ (nand_spi_flash_page_read scripted 1 (boot []) 0 0 252).ret = none
    ∧ (nand_spi_flash_page_read scripted 1 (boot []) 0 0 252).st.extent = 256
    ∧ (nand_spi_flash_page_write scripted 1 (boot []) 0 0 (List.replicate 253 0xAA) 253).ret
        = none
    ∧ (nand_spi_flash_page_write scripted 1 (boot []) 0 0 (List.replicate 253 0xAA) 253).st.extent
        = 256
    ∧ (nand_spi_flash_page_read scripted 1 (boot []) 0 0 2111).ret = none
    ∧ (nand_spi_flash_page_read scripted 1 (boot []) 0 0 2111).st.extent = 2115
    ∧ (nand_spi_flash_page_read scripted 1 (boot []) 0 0 251).ret = some 251
    ∧ (nand_spi_flash_page_read scripted 1 (boot []) 0 0 251).st.extent = 255
    ∧ (nand_spi_flash_page_write scripted 1 (boot []) 0 0 (List.replicate 252 0xAA) 252).ret
        = some 252
    ∧ (nand_spi_flash_page_write scripted 1 (boot []) 0 0 (List.replicate 252 0xAA) 252).st.extent
        = 255 := by
  decide

/-! ## Error names (C13) and return codes (C20) -/

section Returns

variable {δ : Type}

/-- Lines 71-82: the one-byte exchange of `nand_spi_flash_write_enable` fits
the array, so the call always returns `NSF_ERR_OK`. -/
theorem write_enable_eq (D : Device δ) (st : State δ) :
    nand_spi_flash_write_enable D st
      = ⟨some NSF_ERR_OK, (nand_spi_transfer D (poke 0 NSF_CMD_WRITE_ENABLE st) 1 0).2⟩ := by
  unfold nand_spi_flash_write_enable
  simp only [transfer_rc _ _ _ _ (show 1 + 0 ≤ 255 by decide), ne_eq, not_true_eq_false, if_false]

theorem write_enable_ret (D : Device δ) (st : State δ) :
    (nand_spi_flash_write_enable D st).ret = some NSF_ERR_OK := by
  rw [write_enable_eq]

/-- Lines 48-68: the exchanges of `nand_spi_flash_reset_unlock` fit the array;
the call returns `NSF_ERR_OK` when its status poll has ended. -/
theorem reset_unlock_eq (D : Device δ) (fuel : Nat) (st : State δ) :
    nand_spi_flash_reset_unlock D fuel st
      = match (nand_spi_flash_read_status D fuel
            (nand_spi_transfer D (poke 0 NSF_CMD_RESET st) 1 0).2).1 with
        | none =>
          ⟨none, (nand_spi_flash_read_status D fuel
            (nand_spi_transfer D (poke 0 NSF_CMD_RESET st) 1 0).2).2⟩
        | some _ =>
          ⟨some NSF_ERR_OK,
           (nand_spi_transfer D
             (poke 2 0x00 (poke 1 NSF_CMD_FEATURE_LOCK (poke 0 NSF_CMD_SET_FEATURE
               (nand_spi_flash_read_status D fuel
                 (nand_spi_transfer D (poke 0 NSF_CMD_RESET st) 1 0).2).2))) 3 0).2⟩ := by
  unfold nand_spi_flash_reset_unlock
  simp only [transfer_rc _ _ _ _ (show 1 + 0 ≤ 255 by decide),
    transfer_rc _ _ _ _ (show 3 + 0 ≤ 255 by decide), ne_eq, not_true_eq_false, if_false]

/-- Lines 85-109: the read-identifier exchange fits the array; after it the
call is `nand_spi_flash_reset_unlock` followed by
`nand_spi_flash_write_enable`. -/
theorem init_eq (D : Device δ) (fuel : Nat) (st : State δ) :
    nand_spi_flash_init D fuel st
      = match (nand_spi_flash_reset_unlock D fuel
            (nand_spi_transfer D (poke 1 0x00 (poke 0 NSF_CMD_READ_ID st)) 2 2).2).ret with
        | none =>
          ⟨none, (nand_spi_flash_reset_unlock D fuel
            (nand_spi_transfer D (poke 1 0x00 (poke 0 NSF_CMD_READ_ID st)) 2 2).2).st⟩
        | some _ =>
          nand_spi_flash_write_enable D
            (nand_spi_flash_reset_unlock D fuel
              (nand_spi_transfer D (poke 1 0x00 (poke 0 NSF_CMD_READ_ID st)) 2 2).2).st := by
  unfold nand_spi_flash_init
  simp only [transfer_rc _ _ _ _ (show 2 + 2 ≤ 255 by decide), ne_eq, not_true_eq_false, if_false]

theorem write_enable_trace (D : Device δ) (st : State δ) :
    (nand_spi_flash_write_enable D st).st.trace = st.trace ++ [⟨[NSF_CMD_WRITE_ENABLE], 0⟩] := by
  have h1 : List.range 1 = [0] := rfl
  rw [write_enable_eq]
  show (nand_spi_transfer D _ 1 0).2.trace = _
  rw [transfer_trace _ _ _ _ (by decide)]
  simp [h1, NSF_CMD_WRITE_ENABLE]

/-- The chip after the reset frame of `nand_spi_flash_reset_unlock`. -/
theorem reset_frame_dev (D : Device δ) (st : State δ) :
    (nand_spi_transfer D (poke 0 NSF_CMD_RESET st) 1 0).2.dev
      = (D.spi_transfer st.dev [NSF_CMD_RESET] 1).1
    ∧ (nand_spi_transfer D (poke 0 NSF_CMD_RESET st) 1 0).2.trace
      = st.trace ++ [⟨[NSF_CMD_RESET], 0⟩] := by
  have h1 : List.range 1 = [0] := rfl
  have hframe : (List.range 1).map (peek (poke 0 NSF_CMD_RESET st)) = [NSF_CMD_RESET] := by
    simp [h1, NSF_CMD_RESET]
  constructor
  · rw [transfer_dev _ _ _ _ (by decide), hframe]; rfl
  · rw [transfer_trace _ _ _ _ (by decide), hframe]; rfl

/-- `nand_spi_flash_reset_unlock` when the chip answers `n` busy polls and then
an idle one after the reset. -/
theorem reset_unlock_rounds (D : Device δ) (fuel : Nat) (st : State δ) (n : Nat)
    (hbusy : ∀ k, k < n →
      status_answer D k (D.spi_transfer st.dev [NSF_CMD_RESET] 1).1 &&& NSF_OIP_MASK ≠ 0)
    (hidle : status_answer D n (D.spi_transfer st.dev [NSF_CMD_RESET] 1).1 &&& NSF_OIP_MASK = 0)
    (hf : n < fuel) :
    (nand_spi_flash_reset_unlock D fuel st).ret = some NSF_ERR_OK
    ∧ (nand_spi_flash_reset_unlock D fuel st).st.trace
        = st.trace ++ ⟨[NSF_CMD_RESET], 0⟩ :: List.replicate (n + 1) status_poll
            ++ [⟨[NSF_CMD_SET_FEATURE, NSF_CMD_FEATURE_LOCK, 0x00], 0⟩] := by
  have h3 : List.range 3 = [0, 1, 2] := rfl
  obtain ⟨hdev, htr⟩ := reset_frame_dev D st
  have hp := read_status_rounds D fuel (nand_spi_transfer D (poke 0 NSF_CMD_RESET st) 1 0).2 n
    (by rw [hdev]; exact hbusy) (by rw [hdev]; exact hidle) hf
  rw [reset_unlock_eq]
  simp only [hp.1]
  refine ⟨trivial, ?_⟩
  show (nand_spi_transfer D _ 3 0).2.trace = _
  rw [transfer_trace _ _ _ _ (by decide)]
  simp only [poke_trace, hp.2.1, htr]
  simp [h3, NSF_CMD_SET_FEATURE, NSF_CMD_FEATURE_LOCK]

/-- The chip after the read-identifier frame of `nand_spi_flash_init`. -/
theorem read_id_frame (D : Device δ) (st : State δ) :
    (nand_spi_transfer D (poke 1 0x00 (poke 0 NSF_CMD_READ_ID st)) 2 2).2.dev
      = (D.spi_transfer st.dev [NSF_CMD_READ_ID, 0x00] 4).1
    ∧ (nand_spi_transfer D (poke 1 0x00 (poke 0 NSF_CMD_READ_ID st)) 2 2).2.trace
      = st.trace ++ [⟨[NSF_CMD_READ_ID, 0x00], 2⟩] := by
  have hframe : (List.range 2).map (peek (poke 1 0x00 (poke 0 NSF_CMD_READ_ID st)))
      = [NSF_CMD_READ_ID, 0x00] := by
    simp [range_two, NSF_CMD_READ_ID]
  constructor
  · rw [transfer_dev _ _ _ _ (by decide), hframe]; rfl
  · rw [transfer_trace _ _ _ _ (by decide), hframe]; rfl

end Returns

/-- C13: `nand_spi_flash_str_error` returns "NSF_ERR_OK" for every code >= 0;
for each of the nine negative enumerators (-1 .. -8 and -100) it returns the
enumerator's name, and these names and "NSF_ERR_OK" are pairwise distinct;
for every other negative code it returns "NSF_UNKNOWN_ERROR". -/
theorem str_error_table :
    (∀ e : Int, 0 ≤ e → nand_spi_flash_str_error e = "NSF_ERR_OK")
    ∧ nand_spi_flash_str_error NSF_ERR_NOT_INITED = "NSF_ERR_NOT_INITED"
    ∧ nand_spi_flash_str_error NSF_ERR_ALREADY_INITED = "NSF_ERR_ALREADY_INITED"
    ∧ nand_spi_flash_str_error NSF_ERR_UNKNOWN_DEVICE = "NSF_ERR_UNKNOWN_DEVICE"
    ∧ nand_spi_flash_str_error NSF_ERR_READ_ONLY = "NSF_ERR_READ_ONLY"
    ∧ nand_spi_flash_str_error NSF_ERR_BAD_BLOCK = "NSF_ERR_BAD_BLOCK"
    ∧ nand_spi_flash_str_error NSF_ERR_DATA_TOO_BIG = "NSF_ERR_DATA_TOO_BIG"
    ∧ nand_spi_flash_str_error NSF_ERR_ERASE = "NSF_ERR_ERASE"
    ∧ nand_spi_flash_str_error NSF_ERR_PROGRAM = "NSF_ERR_PROGRAM"
    ∧ nand_spi_flash_str_error NSF_ERROR_SPI = "NSF_ERROR_SPI"
    ∧ (([0, -1, -2, -3, -4, -5, -6, -7, -8, -100] : List Int).map
          nand_spi_flash_str_error).Nodup
    ∧ (∀ e : Int, e < 0 →
        e ∉ ([-1, -2, -3, -4, -5, -6, -7, -8, -100] : List Int) →
        nand_spi_flash_str_error e = "NSF_UNKNOWN_ERROR") := by
  refine ⟨?_, by decide, by decide, by decide, by decide, by decide, by decide, by decide,
    by decide, by decide, by decide, ?_⟩
  · intro e he
    simp [nand_spi_flash_str_error, he]
  · intro e he hn
    simp only [List.mem_cons, List.mem_singleton, not_or, List.not_mem_nil, or_false] at hn
    obtain ⟨h1, h2, h3, h4, h5, h6, h7, h8, h100⟩ := hn
    have h0 : ¬ (e ≥ 0) := by omega
    simp [nand_spi_flash_str_error, h0, h1, h2, h3, h4, h5, h6, h7, h8, h100]

section Encoding

variable {δ : Type}

end Encoding

/-- C17: if the chip answers successive status polls with `n >= 0` bytes that
have bit 0x01 set and then a byte `s` with the bit clear,
`nand_spi_flash_read_status` issues exactly `n + 1` exchanges, each the frame
`[0x0F, 0xC0]` with write length 2 and read length 1, and returns `s`.  This
holds from every starting state, so at least one exchange goes out when the
chip is idle (`n = 0`), and the value left in the buffer by earlier calls
plays no part. -/
theorem read_status_exchanges {δ : Type} (D : Device δ) (fuel : Nat) (st : State δ)
    (n s : Nat)
    (hbusy : ∀ k, k < n → status_answer D k st.dev &&& 0x01 ≠ 0)
    (hs : status_answer D n st.dev = s)
    (hidle : s &&& 0x01 = 0)
    (hfuel : n < fuel) :
    (nand_spi_flash_read_status D fuel st).1 = some s
    ∧ (nand_spi_flash_read_status D fuel st).2.trace
        = st.trace ++ List.replicate (n + 1) ⟨[0x0F, 0xC0], 1⟩ := by
  have h := read_status_rounds D fuel st n hbusy (by rw [hs]; exact hidle) hfuel
  exact ⟨by rw [h.1, hs], h.2.1⟩

/-- Example for C17: with the buffer holding 0xFE everywhere and a chip that
answers 0x01, 0x03, 0x2C, the poll issues three exchanges and returns 0x2C;
with an idle chip that answers 0x00 at once it still issues one. -/
theorem read_status_exchanges_witness :
    (nand_spi_flash_read_status scripted 9
        { boot [0x01, 0x03, 0x2C, 0x01] with m_nsf_buffer := fun _ => 0xFE }).1 = some 0x2C
    ∧ (nand_spi_flash_read_status scripted 9
        { boot [0x01, 0x03, 0x2C, 0x01] with m_nsf_buffer := fun _ => 0xFE }).2.trace
        = [⟨[0x0F, 0xC0], 1⟩, ⟨[0x0F, 0xC0], 1⟩, ⟨[0x0F, 0xC0], 1⟩]
    ∧ (nand_spi_flash_read_status scripted 9 (boot [0x00])).2.trace = [⟨[0x0F, 0xC0], 1⟩] :=
  have h := read_status_exchanges scripted 9
    { boot [0x01, 0x03, 0x2C, 0x01] with m_nsf_buffer := fun _ => 0xFE } 2 0x2C
    (by decide) (by decide) (by decide) (by decide)
  have h0 := read_status_exchanges scripted 9 (boot [0x00]) 0 0x00
    (by decide) (by decide) (by decide) (by decide)
  ⟨h.1, h.2, h0.2⟩

/-- C18: `nand_spi_flash_init` emits, in this order, the read-identifier frame
`[0x9F, 0x00]` with read length 2, the reset frame `[0xFF]`, the status
polls `[0x0F, 0xC0]` (`n + 1` of them when the chip answers `n` polls busy
and then one idle, so at least one), the set-feature frame
`[0x1F, 0xA0, 0x00]` and the write-enable frame `[0x06]`, and returns
`NSF_ERR_OK`.  The chip is arbitrary, so this holds whatever identifier bytes
it answers. -/
theorem init_frames {δ : Type} (D : Device δ) (fuel : Nat) (st : State δ) (n : Nat)
    (hbusy : ∀ k, k < n → status_answer D k (after_reset D st.dev) &&& 0x01 ≠ 0)
    (hidle : status_answer D n (after_reset D st.dev) &&& 0x01 = 0)
    (hfuel : n < fuel) :
    (nand_spi_flash_init D fuel st).ret = some NSF_ERR_OK
    ∧ (nand_spi_flash_init D fuel st).st.trace
        = st.trace
            ++ [⟨[0x9F, 0x00], 2⟩, ⟨[0xFF], 0⟩]
            ++ List.replicate (n + 1) ⟨[0x0F, 0xC0], 1⟩
            ++ [⟨[0x1F, 0xA0, 0x00], 0⟩, ⟨[0x06], 0⟩] := by
  obtain ⟨hdev, htr⟩ := read_id_frame D st
  have hr := reset_unlock_rounds D fuel
    (nand_spi_transfer D (poke 1 0x00 (poke 0 NSF_CMD_READ_ID st)) 2 2).2 n
    (by rw [hdev]; exact hbusy) (by rw [hdev]; exact hidle) hfuel
  rw [init_eq]
  simp only [hr.1]
  refine ⟨write_enable_ret D _, ?_⟩
  rw [write_enable_trace, hr.2, htr]
  simp [status_poll, NSF_CMD_READ_ID, NSF_CMD_RESET, NSF_CMD_SET_FEATURE, NSF_CMD_FEATURE_LOCK,
    NSF_CMD_WRITE_ENABLE, NSF_CMD_GET_FEATURE, NSF_CMD_FEATURE_STATUS]

/-- Example for C18: on the chip model, busy for two polls after the reset,
`nand_spi_flash_init` returns 0 and emits the seven frames below. -/
theorem init_frames_witness :
    (nand_spi_flash_init chip 5 (boot fresh_chip)).ret = some 0
    ∧ (nand_spi_flash_init chip 5 (boot fresh_chip)).st.trace
        = [⟨[0x9F, 0x00], 2⟩, ⟨[0xFF], 0⟩, ⟨[0x0F, 0xC0], 1⟩, ⟨[0x0F, 0xC0], 1⟩,
           ⟨[0x0F, 0xC0], 1⟩, ⟨[0x1F, 0xA0, 0x00], 0⟩, ⟨[0x06], 0⟩] :=
  init_frames chip 5 (boot fresh_chip) 2 (by decide) (by decide) (by decide)

/-! ## Operations that leave the cache tracker alone (C19) -/

section Frame

variable {δ : Type}

theorem write_enable_cache (D : Device δ) (st : State δ) :
    (nand_spi_flash_write_enable D st).st.read_row_addr_in_cache
      = st.read_row_addr_in_cache := by
  rw [write_enable_eq]
  simp

end Frame

section Reinit

variable {δ : Type}

theorem reset_unlock_cache (D : Device δ) (fuel : Nat) (st : State δ) :
    (nand_spi_flash_reset_unlock D fuel st).st.read_row_addr_in_cache
      = st.read_row_addr_in_cache := by
  have h := read_status_cache D fuel (nand_spi_transfer D (poke 0 NSF_CMD_RESET st) 1 0).2
  rw [transfer_cache _ _ _ _ (by decide)] at h
  rw [reset_unlock_eq]
  split
  · exact h
  · show (nand_spi_transfer D _ 3 0).2.read_row_addr_in_cache = _
    rw [transfer_cache _ _ _ _ (by decide)]
    exact h

theorem init_cache (D : Device δ) (fuel : Nat) (st : State δ) :
    (nand_spi_flash_init D fuel st).st.read_row_addr_in_cache = st.read_row_addr_in_cache := by
  have h := reset_unlock_cache D fuel
    (nand_spi_transfer D (poke 1 0x00 (poke 0 NSF_CMD_READ_ID st)) 2 2).2
  rw [transfer_cache _ _ _ _ (by decide)] at h
  rw [init_eq]
  split
  · exact h
  · rw [write_enable_cache]; exact h

end Reinit

/-- C11, as stated, fails: on the chip model row 5 is read successfully, then
`nand_spi_flash_init` (or `nand_spi_flash_reset_unlock`) runs and returns 0;
the tracker still holds 5, and the next read of row 5 issues only the
cache-read transfer, no read-cell-to-cache exchange. -/
theorem tracker_survives_init :
    (nand_spi_flash_page_read chip 5 after_init 5 0 16).ret = some 16
    ∧ (nand_spi_flash_init chip 5 (nand_spi_flash_page_read chip 5 after_init 5 0 16).st).ret
        = some NSF_ERR_OK
    ∧ init_after_read.read_row_addr_in_cache = 5
    ∧ (nand_spi_flash_page_read chip 5 init_after_read 5 0 16).st.trace
        = init_after_read.trace ++ [⟨[0x03, 0x00, 0x00, 0x00], 16⟩]
    ∧ (nand_spi_flash_reset_unlock chip 5
        (nand_spi_flash_page_read chip 5 after_init 5 0 16).st).ret = some NSF_ERR_OK
    ∧ reset_after_read.read_row_addr_in_cache = 5
    ∧ (nand_spi_flash_page_read chip 5 reset_after_read 5 0 16).st.trace
        = reset_after_read.trace ++ [⟨[0x03, 0x00, 0x00, 0x00], 16⟩] := by
  decide

/-- C11, amended: `nand_spi_flash_init` and `nand_spi_flash_reset_unlock` leave
the cache tracker as it was.  The tracker holds no row at program start, so
the first accepted read of any row after an init at program start issues the
read-cell-to-cache exchange for that row; a row the tracker holds before a
(re)initialisation is still a cache hit after it (the next accepted read of
it issues only the cache-read transfer). -/
theorem init_keeps_tracker {δ : Type} (D : Device δ) (fuel fuel2 : Nat) (st : State δ) (d : δ)
    (row column length : Nat)
    (hcol : column + length < 2112) (hrow : row < 262144) :
    (nand_spi_flash_init D fuel st).st.read_row_addr_in_cache = st.read_row_addr_in_cache
    ∧ (nand_spi_flash_reset_unlock D fuel st).st.read_row_addr_in_cache
        = st.read_row_addr_in_cache
    ∧ (boot d).read_row_addr_in_cache = NAND_FLASH_ROW_COUNT
    ∧ (∃ rest,
        (nand_spi_flash_page_read D fuel2 (nand_spi_flash_init D fuel (boot d)).st
            row column length).st.trace
          = (nand_spi_flash_init D fuel (boot d)).st.trace ++ row_command 0x13 row :: rest)
    ∧ (st.read_row_addr_in_cache = row →
        (nand_spi_flash_page_read D fuel2 (nand_spi_flash_init D fuel st).st
            row column length).st.trace
          = (nand_spi_flash_init D fuel st).st.trace ++ [cache_read column length]
        ∧ (nand_spi_flash_page_read D fuel2 (nand_spi_flash_reset_unlock D fuel st).st
            row column length).st.trace
          = (nand_spi_flash_reset_unlock D fuel st).st.trace ++ [cache_read column length]) := by
  refine ⟨init_cache D fuel st, reset_unlock_cache D fuel st, rfl, ?_, ?_⟩
  · have hmiss : (nand_spi_flash_init D fuel (boot d)).st.read_row_addr_in_cache ≠ row := by
      rw [init_cache]
      show NAND_FLASH_ROW_COUNT ≠ row
      simp only [NAND_FLASH_ROW_COUNT, NAND_FLASH_PAGE_COUNT_PER_BLOCK, NAND_FLASH_BLOCK_COUNT]
      omega
    exact page_read_miss_prefix D fuel2 _ row column length hcol hrow hmiss
  · intro hhit
    constructor
    · rw [page_read_hit D fuel2 _ row column length hcol hrow (by rw [init_cache]; exact hhit),
        page_read_transfer_trace]
    · rw [page_read_hit D fuel2 _ row column length hcol hrow
          (by rw [reset_unlock_cache]; exact hhit),
        page_read_transfer_trace]

/-- Example for C11 (amended): from program start, `nand_spi_flash_init` leaves
the tracker at 262144 and the first read of row 5 starts with
`[0x13, 0x00, 0x00, 0x05]`. -/
theorem init_keeps_tracker_witness :
    after_init.read_row_addr_in_cache = 262144
    ∧ ((nand_spi_flash_page_read chip 5 after_init 5 0 16).st.trace.drop
          after_init.trace.length).head? = some ⟨[0x13, 0x00, 0x00, 0x05], 0⟩ :=
  ⟨(init_keeps_tracker chip 5 5 (boot fresh_chip) fresh_chip 5 0 16 (by decide) (by decide)).1,
   by decide⟩

/-! ## Tracker coherence (C14) and the row range of block erase (C16) -/

/-- C14 fails on the code: row 5 is read (tracker 5), then a read of row 7
sends the read-cell-to-cache frame for row 7 and returns -5 because the
status reports ECC all-ones.  The tracker still holds 5 although the page
buffer was last loaded with row 7, and the next read of row 5 is served from
the cache: it issues only the cache-read transfer and hands over the bytes of
row 7 (0x07) instead of those of row 5 (0x05). -/
theorem tracker_stale_after_failed_load :
    (nand_spi_flash_page_read faulty_chip 5 (boot (numbered_chip, [0x00, 0x30])) 5 0 16).ret
        = some 16
    ∧ (nand_spi_flash_page_read faulty_chip 5 (boot (numbered_chip, [0x00, 0x30])) 5 0 16).out
        = List.replicate 16 0x05
    ∧ (nand_spi_flash_page_read faulty_chip 5
        (nand_spi_flash_page_read faulty_chip 5 (boot (numbered_chip, [0x00, 0x30])) 5 0 16).st
        7 0 16).ret = some NSF_ERR_BAD_BLOCK
    ∧ after_failed_load.read_row_addr_in_cache = 5
    ∧ loaded_row after_failed_load.trace = some 7
    ∧ ¬ coherent after_failed_load
    ∧ (nand_spi_flash_page_read faulty_chip 5 after_failed_load 5 0 16).ret = some 16
    ∧ (nand_spi_flash_page_read faulty_chip 5 after_failed_load 5 0 16).st.trace
        = after_failed_load.trace ++ [⟨[0x03, 0x00, 0x00, 0x00], 16⟩]
    ∧ (nand_spi_flash_page_read faulty_chip 5 after_failed_load 5 0 16).out
        = List.replicate 16 0x07 := by
  refine ⟨by decide, by decide, by decide, by decide, by decide, ?_, by decide, by decide,
    by decide⟩
  intro h
  have h5 : after_failed_load.read_row_addr_in_cache < NAND_FLASH_ROW_COUNT := by decide
  have h7 : loaded_row after_failed_load.trace = some 7 := by decide
  have := h h5
  rw [h7] at this
  exact absurd this (by decide)

/-- C16 fails on the code: `nand_spi_flash_block_erase` has no range check.
Called with row 262144 it returns 0 and emits the block-erase frame
`[0xD8, 0x04, 0x00, 0x00]`, which encodes 262144, not below the row count;
called with row 0xFFFFFFFF it emits `[0xD8, 0xFF, 0xFF, 0xFF]`.  The page
read and page write for the same rows emit nothing. -/
theorem block_erase_row_unchecked :
    NAND_FLASH_ROW_COUNT = 262144
    ∧ (nand_spi_flash_block_erase scripted 2 (boot []) 262144).ret = some NSF_ERR_OK
    ∧ (nand_spi_flash_block_erase scripted 2 (boot []) 262144).st.trace
        = [⟨[0x06], 0⟩, ⟨[0xD8, 0x04, 0x00, 0x00], 0⟩, ⟨[0x0F, 0xC0], 1⟩]
    ∧ frame_row [0xD8, 0x04, 0x00, 0x00] = 262144
    ∧ (nand_spi_flash_block_erase scripted 2 (boot []) 0xFFFFFFFF).st.trace
        = [⟨[0x06], 0⟩, ⟨[0xD8, 0xFF, 0xFF, 0xFF], 0⟩, ⟨[0x0F, 0xC0], 1⟩]
    ∧ frame_row [0xD8, 0xFF, 0xFF, 0xFF] = 16777215
    ∧ (nand_spi_flash_page_read scripted 2 (boot []) 262144 0 1).st.trace = []
    ∧ (nand_spi_flash_page_write scripted 2 (boot []) 262144 0 [0x00] 1).st.trace = [] := by
  decide

/-! ## Write-enable before program and erase (C12) -/

section Latch

variable {δ : Type}

end Latch

end NandSpiFlash
